import Mathlib

/-!
Shallow embedding of the combo firmware (src/combo/combo.ino).

Modelling conventions:
* C++ `float` values are modelled as `ℚ` (the algorithms are plain arithmetic
  on small quantities; the claims are about the ideal real-valued behaviour).
* `unsigned long` millisecond timestamps are modelled as `ℕ`; the firmware's
  wraparound subtraction `now - last` coincides with truncated `ℕ` subtraction
  whenever `last ≤ now`, which holds for the monotone `millis()` clock.
* `uint32_t` packed colors are modelled as `ℕ` (24-bit `0xRRGGBB` values, the
  only values `strip.Color` ever produces); `uint8_t` channel extraction and
  the float-to-`uint8_t` truncating cast are modelled explicitly.
* C arrays are modelled as total functions `ℕ → α`; every loop of the source
  only reads/writes the indices the C code touches.
-/

namespace Combo

/-! ### Hardware / FFT configuration (combo.ino lines 21-32) -/

def NUM_LEDS : ℕ := 120
def SAMPLES : ℕ := 64
def NUM_BINS : ℕ := SAMPLES / 2

/-! ### Mode switching configuration (lines 43-53) -/

def SWITCH_PERIODIC : Bool := true
def SWITCH_ON_SPIKE : Bool := true
def SWITCH_INTERVAL_MS : ℕ := 90000
def MIN_MODE_TIME_MS : ℕ := 30000
def SPIKE_THRESHOLD : ℚ := 5/10

inductive Mode where
  | trail
  | lava
  | spectrum
deriving DecidableEq, Repr

/-- `(currentMode + 1) % NUM_MODES` on the three-element enum (line 518). -/
def Mode.next : Mode → Mode
  | .trail => .lava
  | .lava => .spectrum
  | .spectrum => .trail

/-! ### Trail configuration (lines 64-78) -/

def TRAIL_REVERSE : Bool := true
def TRAIL_THRESHOLD : ℚ := 70/100
def TRAIL_USE_INTENSITY : Bool := true
def TRAIL_SCROLL_MS : ℕ := 50
def TRAIL_FADE : ℚ := 92/100
def TRAIL_REALTIME_LEDS : ℕ := 8
def TRAIL_NUM_BANDS : ℕ := 8
def TRAIL_BAND_START : ℕ → ℕ := fun b => [1, 2, 3, 4, 6, 9, 12, 16].getD b 0
def TRAIL_BAND_END : ℕ := 32
def TRAIL_BAND_NOISE : ℕ → ℚ := fun b => if b = 0 then 200 else 80
def TRAIL_COLORS : ℕ → ℕ := fun b =>
  [0x0044FF, 0x2200FF, 0x6600FF, 0x9900FF, 0xCC00FF, 0xFF00CC, 0xFF0088, 0xFF0044].getD b 0

/-! ### Lava configuration (lines 88-99) -/

def LAVA_MAX_BLOBS : ℕ := 8
def LAVA_FADE_RATE : ℚ := 92/100
def LAVA_DRIFT_SPEED : ℚ := 3/10
def LAVA_SPAWN_SIZE : ℚ := 10
def LAVA_SHRINK_RATE : ℚ := 97/100
def LAVA_TRIGGER_THRESHOLD : ℚ := 3/10
def LAVA_COLOR_MODE : ℕ := 1
def LAVA_NUM_BANDS : ℕ := 6
def LAVA_COLORS : ℕ → ℕ := fun b =>
  [0xFF0000, 0xFF4400, 0xFFAA00, 0x44FF00, 0x0088FF, 0x8800FF].getD b 0

/-! ### Spectrum configuration (lines 122-133) -/

def SPECTRUM_SENSITIVITY : ℚ := 15/10
def SPECTRUM_REVERSE : Bool := false
def SPECTRUM_RESOLUTION : ℕ := 4
def SPECTRUM_NOISE_LOW : ℚ := 50
def SPECTRUM_NOISE_MID : ℚ := 60
def SPECTRUM_NOISE_HIGH : ℚ := 80
def SPECTRUM_R : ℕ := 0
def SPECTRUM_G : ℕ := 255
def SPECTRUM_B : ℕ := 0
def SPECTRUM_ACTIVE_LEDS : ℕ := NUM_LEDS / SPECTRUM_RESOLUTION

/-! ### Arduino primitives -/

/-- Arduino `constrain(amt, low, high)`:
`((amt)<(low)?(low):((amt)>(high)?(high):(amt)))`. -/
def constrain (x lo hi : ℚ) : ℚ := if x < lo then lo else if x > hi then hi else x

/-- Arduino `random(lo, hi)` returns a value in `[lo, hi)`; the random draw is
an oracle input `r : ℕ`, reduced into the requested range exactly as any
outcome of the generator is. -/
def arduinoRandom (lo hi : ℕ) (r : ℕ) : ℕ := lo + r % (hi - lo)

/-- Truncation toward zero, the C `(int)` cast applied to a float. -/
def ratTrunc (q : ℚ) : ℤ := if q < 0 then ⌈q⌉ else ⌊q⌋

/-! ### Packed colors -/

/-- Red channel of a packed `0xRRGGBB` color (`(c >> 16) & 0xFF`). -/
def colorR (c : ℕ) : ℕ := c / 2 ^ 16 % 256

/-- Green channel of a packed color (`(c >> 8) & 0xFF`). -/
def colorG (c : ℕ) : ℕ := c / 2 ^ 8 % 256

/-- Blue channel of a packed color (`c & 0xFF`). -/
def colorB (c : ℕ) : ℕ := c % 256

/-- `strip.Color(r, g, b)`: pack three byte channels into `0xRRGGBB`. -/
def stripColor (r g b : ℕ) : ℕ := r * 2 ^ 16 + g * 2 ^ 8 + b

/-- A float-scaled channel stored into a `uint8_t`
(`uint8_t r = channel * factor`): truncate, then reduce mod 256. -/
def chanMul (x : ℕ) (factor : ℚ) : ℕ := (⌊(x : ℚ) * factor⌋).toNat % 256

/-! ### Shared audio front end (lines 55-58, 154-181) -/

/-- The global loudness tracker: `globalAudioLevel`, `globalAudioPeak`,
`globalLastAudioLevel` (initialized 0 / 100 / 0). -/
structure AudioTracker where
  level : ℚ
  peak : ℚ
  lastLevel : ℚ
deriving DecidableEq, Repr

/-- `audio`: the mean of spectrum bins 1 .. NUM_BINS-1 (lines 155-159 and
313-317): sum `vReal[i]` for `i = 1 .. 31`, divided by `NUM_BINS - 1`. -/
def binAverage (v : ℕ → ℚ) : ℚ := ((List.range' 1 31).map v).sum / 31

/-- `updateGlobalAudioLevel()` (lines 154-174): asymmetric follower
(instant rise, `0.7/0.3` decay) plus peak tracking
(instant rise, `0.99/0.01` decay toward the floor constant 50). -/
def updateGlobalAudioLevel (v : ℕ → ℚ) (s : AudioTracker) : AudioTracker :=
  let audio := binAverage v
  let lastLevel := s.level
  let level := if audio > s.level then audio else s.level * (7/10) + audio * (3/10)
  let peak := if level > s.peak then level else s.peak * (99/100) + 50 * (1/100)
  { level := level, peak := peak, lastLevel := lastLevel }

/-- `detectAudioSpike()` (lines 176-181). -/
def detectAudioSpike (s : AudioTracker) : Bool :=
  if s.peak ≤ 50 then false
  else
    let cur := constrain ((s.level - 50) / (s.peak - 50)) 0 1
    let last := constrain ((s.lastLevel - 50) / (s.peak - 50)) 0 1
    decide (cur > SPIKE_THRESHOLD ∧ cur > last + 1/4)

/-! ### Trail engine (lines 80-82, 187-266) -/

/-- Trail engine state: `trailBands`, `trailBandPeaks`, `trailLastScroll`. -/
structure TrailState where
  bands : ℕ → ℚ
  bandPeaks : ℕ → ℚ
  lastScroll : ℕ

/-- `trailLed(i)` (lines 187-189): index remapping for the reverse flag. -/
def trailLed (i : ℕ) : ℕ := if TRAIL_REVERSE = true then NUM_LEDS - 1 - i else i

/-- `trailDimColor(color, intensity)` (lines 191-196). -/
def trailDimColor (color : ℕ) (intensity : ℚ) : ℕ :=
  stripColor (chanMul (colorR color) intensity) (chanMul (colorG color) intensity)
    (chanMul (colorB color) intensity)

/-- `trailFadeColor(color, factor)` (lines 198-203). -/
def trailFadeColor (color : ℕ) (factor : ℚ) : ℕ :=
  stripColor (chanMul (colorR color) factor) (chanMul (colorG color) factor)
    (chanMul (colorB color) factor)

/-- Mean of `vReal` over band `b`'s bin range (lines 214-223): bins from
`TRAIL_BAND_START[b]` up to (exclusive) the next band's start, or
`TRAIL_BAND_END` for the last band. -/
def trailBandMean (v : ℕ → ℚ) (b : ℕ) : ℚ :=
  let endBin := if b < TRAIL_NUM_BANDS - 1 then TRAIL_BAND_START (b + 1) else TRAIL_BAND_END
  ((List.range' (TRAIL_BAND_START b) (endBin - TRAIL_BAND_START b)).map v).sum
    / (endBin - TRAIL_BAND_START b : ℕ)

/-- The activity test of lines 227-228: mean above both the static noise floor
and `TRAIL_THRESHOLD` times the adaptive peak. -/
def trailActive (band noise peak : ℚ) : Bool :=
  decide (band > noise ∧ band > peak * TRAIL_THRESHOLD)

/-- The intensity computation of lines 232-233:
`(band - noise) / (peak - noise + 1)` constrained to `[0.2, 1.0]`. -/
def trailIntensity (band noise peak : ℚ) : ℚ :=
  constrain ((band - noise) / (peak - noise + 1)) (2/10) (10/10)

/-- The realtime-LED writes of lines 226-241, looped over bands 0-7. -/
def trailRealtime (bands peaks : ℕ → ℚ) (f0 : ℕ → ℕ) : ℕ → ℕ :=
  (List.range TRAIL_REALTIME_LEDS).foldl
    (fun f b =>
      Function.update f (trailLed b)
        (if trailActive (bands b) (TRAIL_BAND_NOISE b) (peaks b) then
          if TRAIL_USE_INTENSITY = true then
            trailDimColor (TRAIL_COLORS b) (trailIntensity (bands b) (TRAIL_BAND_NOISE b) (peaks b))
          else TRAIL_COLORS b
        else 0))
    f0

/-- One write of the scroll loop body (lines 247-255) at loop index `i`:
pixels at logical index at least `2 * TRAIL_REALTIME_LEDS` receive a faded copy
of the pixel `TRAIL_REALTIME_LEDS` positions closer to the head, the rest an
exact copy. -/
def trailScrollWrite (fade : ℚ) (f : ℕ → ℕ) (i : ℕ) : ℕ → ℕ :=
  if TRAIL_REALTIME_LEDS + TRAIL_REALTIME_LEDS ≤ i then
    Function.update f (trailLed i) (trailFadeColor (f (trailLed (i - TRAIL_REALTIME_LEDS))) fade)
  else
    Function.update f (trailLed i) (f (trailLed (i - TRAIL_REALTIME_LEDS)))

/-- The scroll loop of lines 247-255, descending from `i = NUM_LEDS - 1` down
to `i = TRAIL_REALTIME_LEDS`; fuel `n` means indices `n + 7` down to 8 remain.
Each write reads the current (partially updated) frame, as the C loop does. -/
def trailScrollAux (fade : ℚ) : ℕ → (ℕ → ℕ) → (ℕ → ℕ)
  | 0, f => f
  | n + 1, f => trailScrollAux fade n (trailScrollWrite fade f (n + TRAIL_REALTIME_LEDS))

/-- One full scroll step (the body of the `if` at lines 245-256). -/
def trailScroll (fade : ℚ) (f : ℕ → ℕ) : ℕ → ℕ :=
  trailScrollAux fade (NUM_LEDS - TRAIL_REALTIME_LEDS) f

/-- `trailBandPeaks` update (lines 259-265): instant rise, else decay
`peak * 0.993 + noise * 0.007`. -/
def trailPeakUpdate (band peak noise : ℚ) : ℚ :=
  if band > peak then band else peak * (993/1000) + noise * (7/1000)

/-- `trailSetup()` (lines 205-210) acting on the trail state; the frame clear
is applied by the caller's state (see `nextMode`). -/
def trailSetupState (t : TrailState) : TrailState :=
  { t with bandPeaks := fun b => if b < TRAIL_NUM_BANDS then TRAIL_BAND_NOISE b else t.bandPeaks b }

/-- `trailUpdate()` (lines 212-266) on the trail state and frame buffer. -/
def trailUpdateState (v : ℕ → ℚ) (now : ℕ) (t : TrailState) (f : ℕ → ℕ) :
    TrailState × (ℕ → ℕ) :=
  let bands := fun b => if b < TRAIL_NUM_BANDS then trailBandMean v b else t.bands b
  let f1 := trailRealtime bands t.bandPeaks f
  let scrolled :=
    if TRAIL_SCROLL_MS ≤ now - t.lastScroll then (now, trailScroll TRAIL_FADE f1)
    else (t.lastScroll, f1)
  let peaks := fun b =>
    if b < TRAIL_NUM_BANDS then trailPeakUpdate (bands b) (t.bandPeaks b) (TRAIL_BAND_NOISE b)
    else t.bandPeaks b
  ({ bands := bands, bandPeaks := peaks, lastScroll := scrolled.1 }, scrolled.2)

/-! ### Lava engine (lines 101-116, 272-443) -/

/-- A slot of the fixed 8-slot blob pool (lines 101-108). -/
structure LavaBlob where
  active : Bool
  position : ℚ
  size : ℚ
  brightness : ℚ
  drift : ℚ
  colorIndex : ℕ
deriving DecidableEq, Repr

/-- Lava engine state (lines 110-116). -/
structure LavaState where
  blobs : ℕ → LavaBlob
  bandLevels : ℕ → ℚ
  bandPeaks : ℕ → ℚ
  dominantBand : ℕ
  audioLevel : ℚ
  audioPeak : ℚ
  lastAudioLevel : ℚ

/-- `lavaSetup()` (lines 272-281): deactivate all blobs, band peaks to 100,
loudness level to 0 and loudness peak to 100. -/
def lavaSetupState (l : LavaState) : LavaState :=
  { l with
    blobs := fun i => if i < LAVA_MAX_BLOBS then { l.blobs i with active := false } else l.blobs i
    bandPeaks := fun b => if b < LAVA_NUM_BANDS then 100 else l.bandPeaks b
    audioLevel := 0
    audioPeak := 100 }

/-- `bandBins` (line 284). -/
def lavaBandBins : ℕ → ℕ := fun b => [1, 3, 5, 8, 12, 19, 32].getD b 0

/-- Mean of `vReal` over lava band `b` (lines 290-294). -/
def lavaBandMean (v : ℕ → ℚ) (b : ℕ) : ℚ :=
  ((List.range' (lavaBandBins b) (lavaBandBins (b + 1) - lavaBandBins b)).map v).sum
    / (lavaBandBins (b + 1) - lavaBandBins b : ℕ)

/-- Lava band peak update (lines 296-300): instant rise, else decay
`peak * 0.995 + 50 * 0.005`. -/
def lavaPeakUpdate (level peak : ℚ) : ℚ :=
  if level > peak then level else peak * (995/1000) + 50 * (5/1000)

/-- The guarded normalization used at lines 302-305 and 363-371: zero when the
peak is at or below the floor constant 50, otherwise
`constrain ((x - 50) / (peak - 50), 0, 1)`. -/
def lavaNormalized (x peak : ℚ) : ℚ :=
  if peak > 50 then constrain ((x - 50) / (peak - 50)) 0 1 else 0

/-- `lavaAnalyzeAudio()` (lines 283-331): recompute the 6 band means and
peaks, record the band of highest normalized level (strict improvement over a
running maximum starting at 0, so ties keep the earlier band), then run the
independent lava loudness follower. -/
def lavaAnalyzeAudio (v : ℕ → ℚ) (l : LavaState) : LavaState :=
  let bandLevels := fun b => if b < LAVA_NUM_BANDS then lavaBandMean v b else l.bandLevels b
  let bandPeaks := fun b =>
    if b < LAVA_NUM_BANDS then lavaPeakUpdate (bandLevels b) (l.bandPeaks b) else l.bandPeaks b
  let dominant :=
    ((List.range LAVA_NUM_BANDS).foldl
      (fun acc b =>
        let n := lavaNormalized (bandLevels b) (bandPeaks b)
        if n > acc.1 then (n, b) else acc)
      ((0 : ℚ), 0)).2
  let audio := binAverage v
  let lastAudioLevel := l.audioLevel
  let audioLevel := if audio > l.audioLevel then audio else l.audioLevel * (7/10) + audio * (3/10)
  let audioPeak :=
    if audioLevel > l.audioPeak then audioLevel else l.audioPeak * (99/100) + 50 * (1/100)
  { l with
    bandLevels := bandLevels, bandPeaks := bandPeaks, dominantBand := dominant
    audioLevel := audioLevel, audioPeak := audioPeak, lastAudioLevel := lastAudioLevel }

/-- The first scan of `lavaSpawnBlob` (lines 334-340): first inactive slot,
searched with fuel `fuel` starting at index `i` (loop with break). -/
def firstInactiveAux (blobs : ℕ → LavaBlob) : ℕ → ℕ → Option ℕ
  | 0, _ => none
  | fuel + 1, i => if (blobs i).active = false then some i else firstInactiveAux blobs fuel (i + 1)

/-- First inactive slot of the 8-slot pool, `none` when every slot is active
(`slot == -1` in the source). -/
def firstInactive (blobs : ℕ → LavaBlob) : Option ℕ :=
  firstInactiveAux blobs LAVA_MAX_BLOBS 0

/-- The recycling scan of `lavaSpawnBlob` (lines 342-350): running minimum
starting from `minBrightness = 1.0` and `slot = -1` (`none`); only a blob with
brightness strictly below the running minimum takes the slot. -/
def lavaMinBrightSlot (blobs : ℕ → LavaBlob) : Option ℕ :=
  ((List.range LAVA_MAX_BLOBS).foldl
    (fun acc i => if (blobs i).brightness < acc.1 then ((blobs i).brightness, some i) else acc)
    ((1 : ℚ), (none : Option ℕ))).2

/-- Slot selection of `lavaSpawnBlob` (lines 334-350). -/
def lavaChooseSlot (blobs : ℕ → LavaBlob) : Option ℕ :=
  match firstInactive blobs with
  | some i => some i
  | none => lavaMinBrightSlot blobs

/-- The outcomes of the random draws made by one `lavaSpawnBlob` call
(lines 354, 357, 358); each field is the raw oracle value fed to
`arduinoRandom`. -/
structure LavaRand where
  posR : ℕ
  dirR : ℕ
  magR : ℕ
  colR : ℕ

/-- `lavaSpawnBlob(intensity)` (lines 333-360). When a slot is found
(`slot >= 0`) it is overwritten with a fresh blob: random interior position,
size and brightness scaled by the trigger intensity, random drift, color from
the dominant band (`LAVA_COLOR_MODE == 1`). -/
def lavaSpawnBlob (r : LavaRand) (intensity : ℚ) (l : LavaState) : LavaState :=
  match lavaChooseSlot l.blobs with
  | none => l
  | some slot =>
    { l with
      blobs := Function.update l.blobs slot
        { active := true
          position := (arduinoRandom 10 (NUM_LEDS - 10) r.posR : ℚ)
          size := LAVA_SPAWN_SIZE * (7/10 + intensity * (5/10))
          brightness := 5/10 + intensity * (5/10)
          drift := (if arduinoRandom 0 2 r.dirR = 0 then -1 else 1) * LAVA_DRIFT_SPEED *
            (5/10 + (arduinoRandom 0 100 r.magR : ℚ) / 100)
          colorIndex :=
            if LAVA_COLOR_MODE = 0 then arduinoRandom 0 LAVA_NUM_BANDS r.colR
            else l.dominantBand } }

/-- `lavaCheckTrigger()` (lines 362-376): spawn when the normalized loudness
exceeds the trigger threshold and the previous normalized loudness by 0.1. -/
def lavaCheckTrigger (r : LavaRand) (l : LavaState) : LavaState :=
  let normalizedAudio := lavaNormalized l.audioLevel l.audioPeak
  let normalizedLast := lavaNormalized l.lastAudioLevel l.audioPeak
  if normalizedAudio > LAVA_TRIGGER_THRESHOLD ∧ normalizedAudio > normalizedLast + 1/10 then
    lavaSpawnBlob r normalizedAudio l
  else l

/-- Per-blob step of `lavaUpdateBlobs()` (lines 378-395): fade, shrink, drift,
deactivate below the minima, reflect at the strip edges. -/
def lavaBlobStep (b : LavaBlob) : LavaBlob :=
  if b.active = false then b
  else
    let brightness := b.brightness * LAVA_FADE_RATE
    let size := b.size * LAVA_SHRINK_RATE
    let position := b.position + b.drift
    let active := if brightness < 2/100 ∨ size < 1 then false else b.active
    if position < 0 ∨ position ≥ (NUM_LEDS : ℚ) then
      { active := active, position := constrain position 0 (NUM_LEDS - 1)
        size := size, brightness := brightness, drift := b.drift * (-1)
        colorIndex := b.colorIndex }
    else
      { active := active, position := position, size := size, brightness := brightness
        drift := b.drift, colorIndex := b.colorIndex }

/-- `lavaUpdateBlobs()` (lines 378-395) over the 8-slot pool. -/
def lavaUpdateBlobs (l : LavaState) : LavaState :=
  { l with blobs := fun i => if i < LAVA_MAX_BLOBS then lavaBlobStep (l.blobs i) else l.blobs i }

/-- `lavaAddColorToPixel(pixel, color, brightness)` (lines 397-412):
saturating per-channel additive blend. -/
def lavaAddColorToPixel (f : ℕ → ℕ) (pixel : ℕ) (color : ℕ) (brightness : ℚ) : ℕ → ℕ :=
  let newR := chanMul (colorR color) brightness
  let newG := chanMul (colorG color) brightness
  let newB := chanMul (colorB color) brightness
  let existing := f pixel
  Function.update f pixel
    (stripColor (min 255 (colorR existing + newR)) (min 255 (colorG existing + newG))
      (min 255 (colorB existing + newB)))

/-- The per-pixel radial falloff of `lavaRender()` (lines 429-432):
`(1 - distance/size)^2` times brightness, constrained to `[0, 1]`. -/
def lavaFalloff (ipos center size brightness : ℚ) : ℚ :=
  let distance := |ipos - center|
  let falloff := 1 - distance / size
  constrain (falloff * falloff * brightness) 0 1

/-- Rendering of one blob (lines 417-435): composite the falloff-scaled color
into every pixel from `max(0, (int)(center - size))` to
`min(NUM_LEDS - 1, (int)(center + size))`. -/
def lavaRenderBlob (b : LavaBlob) (f : ℕ → ℕ) : ℕ → ℕ :=
  if b.active = false then f
  else
    let startLed : ℤ := max 0 (ratTrunc (b.position - b.size))
    let endLed : ℤ := min ((NUM_LEDS : ℤ) - 1) (ratTrunc (b.position + b.size))
    (List.range (endLed + 1 - startLed).toNat).foldl
      (fun g k =>
        let i := (startLed + k).toNat
        lavaAddColorToPixel g i (LAVA_COLORS b.colorIndex)
          (lavaFalloff (i : ℚ) b.position b.size b.brightness))
      f

/-- `lavaRender()` (lines 414-436): clear the frame, then composite every
active blob. -/
def lavaRender (l : LavaState) : ℕ → ℕ :=
  (List.range LAVA_MAX_BLOBS).foldl (fun f i => lavaRenderBlob (l.blobs i) f) (fun _ => 0)

/-- `lavaUpdate()` (lines 438-443). -/
def lavaUpdateState (v : ℕ → ℚ) (r : LavaRand) (l : LavaState) : LavaState × (ℕ → ℕ) :=
  let l1 := lavaAnalyzeAudio v l
  let l2 := lavaCheckTrigger r l1
  let l3 := lavaUpdateBlobs l2
  (l3, lavaRender l3)

/-! ### Spectrum engine (lines 449-510) -/

/-- `spectrumGetNoiseFloor(freqRatio)` (lines 449-453). -/
def spectrumGetNoiseFloor (freqRatio : ℚ) : ℚ :=
  if freqRatio < 33/100 then SPECTRUM_NOISE_LOW
  else if freqRatio < 66/100 then SPECTRUM_NOISE_MID
  else SPECTRUM_NOISE_HIGH

/-- `spectrumIntensityToColor(intensity)` (lines 455-458). -/
def spectrumIntensityToColor (intensity : ℚ) : ℕ :=
  let i := constrain intensity 0 1
  stripColor (chanMul SPECTRUM_R i) (chanMul SPECTRUM_G i) (chanMul SPECTRUM_B i)

/-- `spectrumSetup()` (lines 460-465): every bin peak starts at twice its
frequency-dependent noise floor. -/
def spectrumSetupPeaks (peaks : ℕ → ℚ) : ℕ → ℚ := fun i =>
  if i < NUM_BINS then spectrumGetNoiseFloor ((i : ℚ) / (NUM_BINS - 1)) * 2 else peaks i

/-- The bin-peak update of `spectrumUpdate()` (lines 469-478), for bins
`1 .. NUM_BINS - 1`: instant rise, else decay `peak * 0.995 + floor * 0.005`. -/
def spectrumPeakUpdate (v : ℕ → ℚ) (peaks : ℕ → ℚ) : ℕ → ℚ := fun b =>
  if 1 ≤ b ∧ b < NUM_BINS then
    let noiseFloor := spectrumGetNoiseFloor ((b : ℚ) / (NUM_BINS - 1))
    if v b > peaks b then v b else peaks b * (995/1000) + noiseFloor * (5/1000)
  else peaks b

/-- The guarded intensity computation of lines 499-504: the quotient
`(value - floor) / (peak - floor)` is formed only when both `value` and `peak`
strictly exceed the noise floor; otherwise the intensity stays 0. -/
def spectrumIntensity (value peak noiseFloor : ℚ) : ℚ :=
  if value > noiseFloor ∧ peak > noiseFloor then
    constrain ((value - noiseFloor) / (peak - noiseFloor) * SPECTRUM_SENSITIVITY) 0 1
  else 0

/-- Per-LED intensity of the spectrum render loop (lines 483-504): linear
interpolation of value and peak between the two bracketing bins. -/
def spectrumLedIntensity (v peaks : ℕ → ℚ) (i : ℕ) : ℚ :=
  let ledRatio : ℚ := (i : ℚ) / ((SPECTRUM_ACTIVE_LEDS : ℚ) - 1)
  let binFloat : ℚ := 1 + ((NUM_BINS : ℚ) - 2) * ledRatio
  let binLow : ℕ := (ratTrunc binFloat).toNat
  let binHigh : ℕ := min (binLow + 1) (NUM_BINS - 1)
  let frac : ℚ := binFloat - binLow
  let value := v binLow * (1 - frac) + v binHigh * frac
  let peak := peaks binLow * (1 - frac) + peaks binHigh * frac
  spectrumIntensity value peak (spectrumGetNoiseFloor ledRatio)

/-- The render half of `spectrumUpdate()` (lines 481-509): clear, then write
each active LED whose intensity is at least the 0.08 visibility cutoff. -/
def spectrumRender (v peaks : ℕ → ℚ) : ℕ → ℕ :=
  (List.range SPECTRUM_ACTIVE_LEDS).foldl
    (fun f i =>
      let ledPos := i * SPECTRUM_RESOLUTION
      let ledIndex := if SPECTRUM_REVERSE = true then NUM_LEDS - 1 - ledPos else ledPos
      let intensity := spectrumLedIntensity v peaks i
      if intensity ≥ 8/100 then Function.update f ledIndex (spectrumIntensityToColor intensity)
      else f)
    (fun _ => 0)

/-- `spectrumUpdate()` (lines 467-510). -/
def spectrumUpdateState (v : ℕ → ℚ) (peaks : ℕ → ℚ) : (ℕ → ℚ) × (ℕ → ℕ) :=
  let peaks1 := spectrumPeakUpdate v peaks
  (peaks1, spectrumRender v peaks1)

/-! ### Mode controller and whole-firmware state (lines 516-576) -/

/-- The complete mutable state of the combo firmware. -/
structure ComboState where
  mode : Mode
  lastSwitch : ℕ
  lastSpikeSwitch : ℕ
  globalAudio : AudioTracker
  trail : TrailState
  lava : LavaState
  spectrumPeaks : ℕ → ℚ
  frame : ℕ → ℕ

/-- `trailSetup()` (lines 205-210) on the full state (peak reset plus
`strip.clear()`). -/
def trailSetup (s : ComboState) : ComboState :=
  { s with trail := trailSetupState s.trail, frame := fun _ => 0 }

/-- `lavaSetup()` (lines 272-281) on the full state. -/
def lavaSetup (s : ComboState) : ComboState :=
  { s with lava := lavaSetupState s.lava }

/-- `spectrumSetup()` (lines 460-465) on the full state. -/
def spectrumSetup (s : ComboState) : ComboState :=
  { s with spectrumPeaks := spectrumSetupPeaks s.spectrumPeaks }

/-- `nextMode()` (lines 516-526): clear the frame buffer, advance the mode
cyclically, stamp `lastSwitch`, and run the entered engine's setup.
`lastSpikeSwitch` is not touched. -/
def nextMode (now : ℕ) (s : ComboState) : ComboState :=
  let s1 := { s with frame := fun _ => 0, mode := s.mode.next, lastSwitch := now }
  match s1.mode with
  | .trail => trailSetup s1
  | .lava => lavaSetup s1
  | .spectrum => spectrumSetup s1

/-- `checkModeSwitch()` (lines 528-542): the periodic timer first, then the
spike path guarded by the minimum dwell since the last spike-triggered
switch. -/
def checkModeSwitch (now : ℕ) (s : ComboState) : ComboState :=
  if SWITCH_PERIODIC = true ∧ SWITCH_INTERVAL_MS ≤ now - s.lastSwitch then nextMode now s
  else if SWITCH_ON_SPIKE = true ∧ MIN_MODE_TIME_MS ≤ now - s.lastSpikeSwitch ∧
      detectAudioSpike s.globalAudio = true then
    nextMode now { s with lastSpikeSwitch := now }
  else s

/-- One iteration of `loop()` (lines 562-576); the sampled spectrum `v` and
the random draws `r` of a possible lava spawn are oracle inputs. -/
def loopStep (v : ℕ → ℚ) (r : LavaRand) (now : ℕ) (s : ComboState) : ComboState :=
  let s1 := { s with globalAudio := updateGlobalAudioLevel v s.globalAudio }
  let s2 := checkModeSwitch now s1
  match s2.mode with
  | .trail =>
    let tf := trailUpdateState v now s2.trail s2.frame
    { s2 with trail := tf.1, frame := tf.2 }
  | .lava =>
    let lf := lavaUpdateState v r s2.lava
    { s2 with lava := lf.1, frame := lf.2 }
  | .spectrum =>
    let pf := spectrumUpdateState v s2.spectrumPeaks
    { s2 with spectrumPeaks := pf.1, frame := pf.2 }

/-- The state of the C++ global initializers, before `setup()` runs
(lines 51-58, 80-82, 110-116, 133). -/
def zeroState : ComboState :=
  { mode := .trail
    lastSwitch := 0
    lastSpikeSwitch := 0
    globalAudio := { level := 0, peak := 100, lastLevel := 0 }
    trail := { bands := fun _ => 0, bandPeaks := fun _ => 0, lastScroll := 0 }
    lava :=
      { blobs := fun _ =>
          { active := false, position := 0, size := 0, brightness := 0, drift := 0
            colorIndex := 0 }
        bandLevels := fun _ => 0, bandPeaks := fun _ => 0, dominantBand := 0
        audioLevel := 0, audioPeak := 100, lastAudioLevel := 0 }
    spectrumPeaks := fun _ => 0
    frame := fun _ => 0 }

/-- The state after `setup()` (lines 548-560) finishing at time `t0`. -/
def initialState (t0 : ℕ) : ComboState :=
  { spectrumSetup (lavaSetup (trailSetup zeroState)) with
    lastSwitch := t0, lastSpikeSwitch := t0 }

/-! ### Helper lemmas -/

lemma le_constrain (x lo hi : ℚ) (h : lo ≤ hi) : lo ≤ constrain x lo hi := by
  unfold constrain; split_ifs <;> linarith

lemma constrain_le (x lo hi : ℚ) (h : lo ≤ hi) : constrain x lo hi ≤ hi := by
  unfold constrain; split_ifs <;> linarith

lemma constrain_mono (x y lo hi : ℚ) (hlh : lo ≤ hi) (h : x ≤ y) :
    constrain x lo hi ≤ constrain y lo hi := by
  unfold constrain; split_ifs <;> linarith

lemma chanMul_lt (x : ℕ) (factor : ℚ) : chanMul x factor < 256 :=
  Nat.mod_lt _ (by norm_num)

lemma colorR_lt (c : ℕ) : colorR c < 256 := Nat.mod_lt _ (by norm_num)

lemma colorG_lt (c : ℕ) : colorG c < 256 := Nat.mod_lt _ (by norm_num)

lemma colorB_lt (c : ℕ) : colorB c < 256 := Nat.mod_lt _ (by norm_num)

lemma colorR_stripColor (r g b : ℕ) (hr : r < 256) (hg : g < 256) (hb : b < 256) :
    colorR (stripColor r g b) = r := by
  unfold colorR stripColor; omega

lemma colorG_stripColor (r g b : ℕ) (hr : r < 256) (hg : g < 256) (hb : b < 256) :
    colorG (stripColor r g b) = g := by
  unfold colorG stripColor; omega

lemma colorB_stripColor (r g b : ℕ) (hr : r < 256) (hg : g < 256) (hb : b < 256) :
    colorB (stripColor r g b) = b := by
  unfold colorB stripColor; omega

lemma stripColor_decode (c : ℕ) (hc : c < 2 ^ 24) :
    stripColor (colorR c) (colorG c) (colorB c) = c := by
  unfold colorR colorG colorB stripColor; omega

lemma chanMul_one (x : ℕ) (hx : x < 256) : chanMul x 1 = x := by
  unfold chanMul
  rw [mul_one, Int.floor_natCast, Int.toNat_natCast, Nat.mod_eq_of_lt hx]

lemma trailFadeColor_one (c : ℕ) (hc : c < 2 ^ 24) : trailFadeColor c 1 = c := by
  unfold trailFadeColor
  rw [chanMul_one _ (colorR_lt c), chanMul_one _ (colorG_lt c), chanMul_one _ (colorB_lt c),
    stripColor_decode c hc]

/-! ### Claim C9 -/

/-- Claim C9: every computed pixel intensity lies in `[0, 1]` before color
conversion — Trail's active-pixel intensity is constrained to `[0.2, 1.0]`,
Lava's per-pixel falloff times brightness to `[0, 1]`, Spectrum's intensity to
`[0, 1]` — and Lava's additive compositing saturates every RGB channel with
`min(255, old + new)`, so no channel exceeds 255. -/
theorem claim_C9 (band noise pk ipos center size brightness value peak nf : ℚ)
    (f : ℕ → ℕ) (px c : ℕ) :
    (2/10 ≤ trailIntensity band noise pk ∧ trailIntensity band noise pk ≤ 1) ∧
    (0 ≤ lavaFalloff ipos center size brightness ∧ lavaFalloff ipos center size brightness ≤ 1) ∧
    (0 ≤ spectrumIntensity value peak nf ∧ spectrumIntensity value peak nf ≤ 1) ∧
    (colorR (lavaAddColorToPixel f px c brightness px) =
        min 255 (colorR (f px) + chanMul (colorR c) brightness) ∧
      colorG (lavaAddColorToPixel f px c brightness px) =
        min 255 (colorG (f px) + chanMul (colorG c) brightness) ∧
      colorB (lavaAddColorToPixel f px c brightness px) =
        min 255 (colorB (f px) + chanMul (colorB c) brightness) ∧
      colorR (lavaAddColorToPixel f px c brightness px) ≤ 255 ∧
      colorG (lavaAddColorToPixel f px c brightness px) ≤ 255 ∧
      colorB (lavaAddColorToPixel f px c brightness px) ≤ 255) := by
  have h1 : (2/10 : ℚ) ≤ 10/10 := by norm_num
  have h01 : (0 : ℚ) ≤ 1 := by norm_num
  refine ⟨⟨le_constrain _ _ _ h1, ?_⟩, ⟨le_constrain _ _ _ h01, constrain_le _ _ _ h01⟩,
    ⟨?_, ?_⟩, ?_⟩
  · have := constrain_le ((band - noise) / (pk - noise + 1)) (2/10) (10/10) h1
    unfold trailIntensity; linarith
  · unfold spectrumIntensity; split_ifs
    · exact le_constrain _ _ _ h01
    · exact le_refl 0
  · unfold spectrumIntensity; split_ifs
    · exact constrain_le _ _ _ h01
    · exact h01
  · unfold lavaAddColorToPixel
    rw [Function.update_same]
    have hr : min 255 (colorR (f px) + chanMul (colorR c) brightness) < 256 := by omega
    have hg : min 255 (colorG (f px) + chanMul (colorG c) brightness) < 256 := by omega
    have hb : min 255 (colorB (f px) + chanMul (colorB c) brightness) < 256 := by omega
    rw [colorR_stripColor _ _ _ hr hg hb, colorG_stripColor _ _ _ hr hg hb,
      colorB_stripColor _ _ _ hr hg hb]
    omega

/-! ### Claim C8 -/

/-- Claim C8: every normalization is guarded — `detectAudioSpike` and
`lavaCheckTrigger` degrade to false / zero normalized level when the relevant
adaptive peak is at or below the floor constant 50, `spectrumIntensity` forms
its quotient only when both the value and the interpolated peak strictly
exceed the noise floor (intensity 0 otherwise), and Trail's intensity
denominator `peak - noise + 1` is at least 1 whenever the peak-above-floor
invariant holds. -/
theorem claim_C8 (s : AudioTracker) (r : LavaRand) (l : LavaState)
    (value peak nf band noise pk : ℚ)
    (h1 : s.peak ≤ 50) (h2 : l.audioPeak ≤ 50)
    (h3 : ¬(nf < value ∧ nf < peak)) (h4 : noise ≤ pk) :
    detectAudioSpike s = false ∧
    lavaNormalized l.audioLevel l.audioPeak = 0 ∧
    lavaCheckTrigger r l = l ∧
    spectrumIntensity value peak nf = 0 ∧
    1 ≤ pk - noise + 1 ∧
    trailIntensity band noise pk = constrain ((band - noise) / (pk - noise + 1)) (2/10) 1 := by
  have hnp : ¬(l.audioPeak > 50) := not_lt.mpr h2
  refine ⟨?_, ?_, ?_, ?_, by linarith, by norm_num [trailIntensity]⟩
  · unfold detectAudioSpike; rw [if_pos h1]
  · unfold lavaNormalized; rw [if_neg hnp]
  · unfold lavaCheckTrigger lavaNormalized
    rw [if_neg hnp, if_neg (by norm_num [LAVA_TRIGGER_THRESHOLD])]
  · unfold spectrumIntensity
    rw [if_neg (by exact fun hc => h3 ⟨hc.1, hc.2⟩)]

/-- A degenerate lava state whose loudness peak sits exactly at the floor
constant 50, used to witness claim C8. -/
def degenerateLava : LavaState :=
  { blobs := zeroState.lava.blobs, bandLevels := fun _ => 0, bandPeaks := fun _ => 0
    dominantBand := 0, audioLevel := 300, audioPeak := 50, lastAudioLevel := 0 }

/-- Witness for claim C8 at a concrete degenerate configuration. -/
theorem claim_C8_witness :
    detectAudioSpike { level := 200, peak := 40, lastLevel := 0 } = false ∧
    lavaNormalized degenerateLava.audioLevel degenerateLava.audioPeak = 0 ∧
    lavaCheckTrigger { posR := 0, dirR := 0, magR := 0, colR := 0 } degenerateLava =
      degenerateLava ∧
    spectrumIntensity 70 60 60 = 0 ∧
    (1 : ℚ) ≤ 80 - 80 + 1 ∧
    trailIntensity 500 80 80 = constrain ((500 - 80) / (80 - 80 + 1)) (2/10) 1 :=
  claim_C8 { level := 200, peak := 40, lastLevel := 0 }
    { posR := 0, dirR := 0, magR := 0, colR := 0 } degenerateLava
    70 60 60 500 80 80 (by norm_num) (by norm_num [degenerateLava]) (by norm_num) (by norm_num)

/-! ### Claim C3 -/

/-- `detectAudioSpike` unfolded into its defining conditions. -/
lemma detectAudioSpike_eq_true (w : AudioTracker) :
    detectAudioSpike w = true ↔
      50 < w.peak ∧
      SPIKE_THRESHOLD < constrain ((w.level - 50) / (w.peak - 50)) 0 1 ∧
      constrain ((w.lastLevel - 50) / (w.peak - 50)) 0 1 + 1/4 <
        constrain ((w.level - 50) / (w.peak - 50)) 0 1 := by
  unfold detectAudioSpike
  split_ifs with h
  · simp only [Bool.false_eq_true, false_iff]
    rintro ⟨h1, -, -⟩
    exact absurd h1 (not_lt.mpr h)
  · rw [decide_eq_true_eq]
    exact ⟨fun hcd => ⟨not_le.mp h, hcd.1, hcd.2⟩, fun hcd => ⟨hcd.2.1, hcd.2.2⟩⟩

/-- A spike never fires when the current level does not exceed the previous
one (the level-vs-lastLevel comparison is made against the same peak). -/
lemma detectAudioSpike_of_level_le (w : AudioTracker) (h : w.level ≤ w.lastLevel) :
    detectAudioSpike w = false := by
  rw [Bool.eq_false_iff]
  intro ht
  rw [detectAudioSpike_eq_true] at ht
  obtain ⟨hp, -, hd⟩ := ht
  have hmono := constrain_mono ((w.level - 50) / (w.peak - 50))
    ((w.lastLevel - 50) / (w.peak - 50)) 0 1 (by norm_num)
    (by
      apply div_le_div_of_nonneg_right _ (by linarith)
      · linarith)
  linarith

/-- A firing spike forces the instant-rise branch of the level follower:
the fresh average strictly exceeds the stored level. -/
lemma spike_forces_rise (v : ℕ → ℚ) (u : AudioTracker)
    (h : detectAudioSpike (updateGlobalAudioLevel v u) = true) :
    u.level < binAverage v := by
  by_contra hle
  push_neg at hle
  have hfalse : detectAudioSpike (updateGlobalAudioLevel v u) = false := by
    apply detectAudioSpike_of_level_le
    unfold updateGlobalAudioLevel
    simp only
    rw [if_neg (not_lt.mpr hle)]
    linarith
  rw [h] at hfalse
  exact absurd hfalse (by simp)

/-- Once the level equals the fresh average, the follower keeps it there and
records it as the previous level as well. -/
lemma updateGlobalAudioLevel_fix (v : ℕ → ℚ) (u : AudioTracker)
    (h : u.level = binAverage v) :
    (updateGlobalAudioLevel v u).level = binAverage v ∧
      (updateGlobalAudioLevel v u).lastLevel = binAverage v := by
  unfold updateGlobalAudioLevel
  simp only
  rw [if_neg (by rw [h]; exact lt_irrefl _)]
  exact ⟨by rw [h]; ring, h⟩

/-- Claim C3: `detectAudioSpike` fires exactly once per qualifying sharp
rise — it returns false whenever the peak is at or below the floor constant
50; it returns true on a cycle whose normalized level exceeds
`SPIKE_THRESHOLD` and the previous cycle's normalized level by more than 0.25;
and after a cycle on which it fired, holding the input level constant (the
level stays elevated with no further rise), it returns false on every
subsequent cycle. -/
theorem claim_C3 (t s : AudioTracker) (v : ℕ → ℚ) (u : AudioTracker) (k : ℕ)
    (hflat : t.peak ≤ 50)
    (hpk : 50 < s.peak)
    (hcur : SPIKE_THRESHOLD < constrain ((s.level - 50) / (s.peak - 50)) 0 1)
    (hdelta : constrain ((s.lastLevel - 50) / (s.peak - 50)) 0 1 + 1/4 <
      constrain ((s.level - 50) / (s.peak - 50)) 0 1)
    (hspike : detectAudioSpike (updateGlobalAudioLevel v u) = true)
    (hk : 1 ≤ k) :
    detectAudioSpike t = false ∧
    detectAudioSpike s = true ∧
    detectAudioSpike ((updateGlobalAudioLevel v)^[k] (updateGlobalAudioLevel v u)) = false := by
  refine ⟨?_, ?_, ?_⟩
  · unfold detectAudioSpike; rw [if_pos hflat]
  · rw [detectAudioSpike_eq_true]; exact ⟨hpk, hcur, hdelta⟩
  · have hrise := spike_forces_rise v u hspike
    have hlevel1 : (updateGlobalAudioLevel v u).level = binAverage v := by
      unfold updateGlobalAudioLevel
      simp only
      rw [if_pos hrise]
    have hfix : ∀ m, 1 ≤ m →
        ((updateGlobalAudioLevel v)^[m] (updateGlobalAudioLevel v u)).level = binAverage v ∧
        ((updateGlobalAudioLevel v)^[m] (updateGlobalAudioLevel v u)).lastLevel = binAverage v := by
      intro m hm
      induction m with
      | zero => omega
      | succ n ih =>
        rcases Nat.eq_or_lt_of_le hm with h1 | h1
        · rw [← h1]
          rw [Function.iterate_one]
          exact updateGlobalAudioLevel_fix v _ hlevel1
        · have hn : 1 ≤ n := by omega
          rw [Function.iterate_succ_apply']
          exact updateGlobalAudioLevel_fix v _ (ih hn).1
    obtain ⟨hl, hll⟩ := hfix k hk
    exact detectAudioSpike_of_level_le _ (by rw [hl, hll])

/-- The mean over bins 1-31 of a constant spectrum is that constant. -/
lemma binAverage_const (c : ℚ) : binAverage (fun _ => c) = c := by
  unfold binAverage
  rw [List.map_const']
  rw [List.sum_replicate]
  have hlen : (List.range' 1 31).length = 31 := rfl
  rw [hlen, nsmul_eq_mul]
  exact mul_div_cancel_left₀ c (by norm_num)

/-- Witness for claim C3: silence then a constant loud input; the spike fires
on the rise cycle and is quiet on the next. -/
theorem claim_C3_witness :
    detectAudioSpike { level := 0, peak := 30, lastLevel := 0 } = false ∧
    detectAudioSpike { level := 150, peak := 150, lastLevel := 0 } = true ∧
    detectAudioSpike
      ((updateGlobalAudioLevel (fun _ => 3100))^[1]
        (updateGlobalAudioLevel (fun _ => 3100)
          { level := 0, peak := 100, lastLevel := 0 })) = false :=
  claim_C3 { level := 0, peak := 30, lastLevel := 0 } { level := 150, peak := 150, lastLevel := 0 }
    (fun _ => 3100) { level := 0, peak := 100, lastLevel := 0 } 1
    (by norm_num) (by norm_num) (by norm_num [constrain, SPIKE_THRESHOLD])
    (by norm_num [constrain])
    (by
      have hstep : updateGlobalAudioLevel (fun _ => 3100) { level := 0, peak := 100, lastLevel := 0 } =
          { level := 3100, peak := 3100, lastLevel := 0 } := by
        unfold updateGlobalAudioLevel
        rw [binAverage_const]
        norm_num
      rw [hstep, detectAudioSpike_eq_true]
      norm_num [constrain, SPIKE_THRESHOLD])
    (by norm_num)

/-! ### Claims C5 and C6: lava spawning -/

/-- The first-inactive scan finds the head of its range when that slot is
inactive. -/
lemma firstInactiveAux_head (blobs : ℕ → LavaBlob) (fuel i : ℕ)
    (h : (blobs i).active = false) :
    firstInactiveAux blobs (fuel + 1) i = some i := by
  unfold firstInactiveAux
  rw [if_pos h]

/-- Soundness of the first-inactive scan: a returned slot is inactive, lies in
the scanned range, and every earlier scanned slot is active. -/
lemma firstInactiveAux_some (blobs : ℕ → LavaBlob) :
    ∀ fuel i k, firstInactiveAux blobs fuel i = some k →
      i ≤ k ∧ k < i + fuel ∧ (blobs k).active = false ∧
        ∀ j, i ≤ j → j < k → (blobs j).active = true := by
  intro fuel
  induction fuel with
  | zero => intro i k h; exact absurd h (by simp [firstInactiveAux])
  | succ n ih =>
    intro i k h
    unfold firstInactiveAux at h
    by_cases hb : (blobs i).active = false
    · rw [if_pos hb] at h
      obtain rfl : i = k := by injection h
      exact ⟨le_refl i, by omega, hb, fun j h1 h2 => absurd (lt_of_le_of_lt h1 h2) (lt_irrefl i)⟩
    · rw [if_neg hb] at h
      obtain ⟨h1, h2, h3, h4⟩ := ih (i + 1) k h
      refine ⟨by omega, by omega, h3, fun j hj1 hj2 => ?_⟩
      rcases Nat.eq_or_lt_of_le hj1 with rfl | hj1
      · exact Bool.not_eq_false _ |>.mp hb
      · exact h4 j hj1 hj2

/-- Completeness of the first-inactive scan: a `none` answer means every
scanned slot is active. -/
lemma firstInactiveAux_none (blobs : ℕ → LavaBlob) :
    ∀ fuel i, firstInactiveAux blobs fuel i = none →
      ∀ j, i ≤ j → j < i + fuel → (blobs j).active = true := by
  intro fuel
  induction fuel with
  | zero => intro i _ j h1 h2; omega
  | succ n ih =>
    intro i h j h1 h2
    unfold firstInactiveAux at h
    by_cases hb : (blobs i).active = false
    · rw [if_pos hb] at h; exact absurd h (by simp)
    · rw [if_neg hb] at h
      rcases Nat.eq_or_lt_of_le h1 with rfl | h1
      · exact Bool.not_eq_false _ |>.mp hb
      · exact ih (i + 1) h j h1 (by omega)

/-- Behaviour of the running-minimum fold of `lavaMinBrightSlot` over any
list, from any accumulator. -/
lemma minBrightFold_spec (blobs : ℕ → LavaBlob) (L : List ℕ) :
    ∀ (m : ℚ) (o : Option ℕ),
      (L.foldl (fun acc i =>
        if (blobs i).brightness < acc.1 then ((blobs i).brightness, some i) else acc) (m, o)).1 ≤ m ∧
      (∀ i ∈ L,
        (L.foldl (fun acc i =>
          if (blobs i).brightness < acc.1 then ((blobs i).brightness, some i) else acc) (m, o)).1 ≤
          (blobs i).brightness) ∧
      ((L.foldl (fun acc i =>
          if (blobs i).brightness < acc.1 then ((blobs i).brightness, some i) else acc) (m, o)) =
          (m, o) ∨
        ∃ k ∈ L,
          (L.foldl (fun acc i =>
            if (blobs i).brightness < acc.1 then ((blobs i).brightness, some i) else acc) (m, o)) =
            ((blobs k).brightness, some k)) := by
  induction L with
  | nil => intro m o; exact ⟨le_refl m, by simp, Or.inl rfl⟩
  | cons a t ih =>
    intro m o
    simp only [List.foldl_cons]
    by_cases ha : (blobs a).brightness < m
    · rw [if_pos ha]
      obtain ⟨h1, h2, h3⟩ := ih (blobs a).brightness (some a)
      refine ⟨le_of_lt (lt_of_le_of_lt h1 ha), ?_, ?_⟩
      · intro i hi
        rcases List.mem_cons.mp hi with rfl | hi
        · exact h1
        · exact h2 i hi
      · rcases h3 with h3 | ⟨k, hk, h3⟩
        · exact Or.inr ⟨a, List.mem_cons_self a t, h3⟩
        · exact Or.inr ⟨k, List.mem_cons_of_mem a hk, h3⟩
    · rw [if_neg ha]
      obtain ⟨h1, h2, h3⟩ := ih m o
      refine ⟨h1, ?_, ?_⟩
      · intro i hi
        rcases List.mem_cons.mp hi with rfl | hi
        · exact le_trans h1 (not_lt.mp ha)
        · exact h2 i hi
      · rcases h3 with h3 | ⟨k, hk, h3⟩
        · exact Or.inl h3
        · exact Or.inr ⟨k, List.mem_cons_of_mem a hk, h3⟩

/-- Claim C5: triggering the lava spawn with intensity 1.0 on an empty pool
activates exactly one blob — slot 0 — and for every outcome of the random
draws it has size `LAVA_SPAWN_SIZE * 1.2 = 12`, brightness 1, and position in
`[10, NUM_LEDS - 10) = [10, 110)`. -/
theorem claim_C5 (r : LavaRand) (l : LavaState)
    (h : ∀ i, i < LAVA_MAX_BLOBS → (l.blobs i).active = false) :
    ((lavaSpawnBlob r 1 l).blobs 0).active = true ∧
    (∀ i, i < LAVA_MAX_BLOBS → i ≠ 0 → ((lavaSpawnBlob r 1 l).blobs i).active = false) ∧
    ((lavaSpawnBlob r 1 l).blobs 0).size = LAVA_SPAWN_SIZE * (12/10) ∧
    ((lavaSpawnBlob r 1 l).blobs 0).size = 12 ∧
    ((lavaSpawnBlob r 1 l).blobs 0).brightness = 1 ∧
    (10 : ℚ) ≤ ((lavaSpawnBlob r 1 l).blobs 0).position ∧
    ((lavaSpawnBlob r 1 l).blobs 0).position < 110 := by
  have hslot : lavaChooseSlot l.blobs = some 0 := by
    unfold lavaChooseSlot firstInactive
    rw [show (LAVA_MAX_BLOBS : ℕ) = 7 + 1 from rfl,
      firstInactiveAux_head l.blobs 7 0 (h 0 (by norm_num [LAVA_MAX_BLOBS]))]
  have hspawn : lavaSpawnBlob r 1 l =
      { l with
        blobs := Function.update l.blobs 0
          { active := true
            position := (arduinoRandom 10 (NUM_LEDS - 10) r.posR : ℚ)
            size := LAVA_SPAWN_SIZE * (7/10 + 1 * (5/10))
            brightness := 5/10 + 1 * (5/10)
            drift := (if arduinoRandom 0 2 r.dirR = 0 then -1 else 1) * LAVA_DRIFT_SPEED *
              (5/10 + (arduinoRandom 0 100 r.magR : ℚ) / 100)
            colorIndex :=
              if LAVA_COLOR_MODE = 0 then arduinoRandom 0 LAVA_NUM_BANDS r.colR
              else l.dominantBand } } := by
    unfold lavaSpawnBlob
    rw [hslot]
  rw [hspawn]
  simp only [Function.update_same]
  have hpos : arduinoRandom 10 (NUM_LEDS - 10) r.posR < 110 := by
    unfold arduinoRandom NUM_LEDS
    have := Nat.mod_lt r.posR (show 0 < 110 - 10 - 0 by norm_num)
    omega
  have hpos10 : 10 ≤ arduinoRandom 10 (NUM_LEDS - 10) r.posR := by
    unfold arduinoRandom; omega
  refine ⟨by trivial, ?_, by norm_num, by norm_num [LAVA_SPAWN_SIZE], by norm_num, ?_, ?_⟩
  · intro i hi hne
    rw [Function.update_noteq hne]
    exact h i hi
  · exact_mod_cast hpos10
  · exact_mod_cast hpos

/-- Witness for claim C5: the pool of the freshly initialized firmware state
is empty. -/
theorem claim_C5_witness :
    (((lavaSpawnBlob { posR := 137, dirR := 1, magR := 55, colR := 2 } 1
        (initialState 0).lava).blobs 0).active = true ∧
      (∀ i, i < LAVA_MAX_BLOBS → i ≠ 0 →
        ((lavaSpawnBlob { posR := 137, dirR := 1, magR := 55, colR := 2 } 1
          (initialState 0).lava).blobs i).active = false) ∧
      ((lavaSpawnBlob { posR := 137, dirR := 1, magR := 55, colR := 2 } 1
        (initialState 0).lava).blobs 0).size = LAVA_SPAWN_SIZE * (12/10) ∧
      ((lavaSpawnBlob { posR := 137, dirR := 1, magR := 55, colR := 2 } 1
        (initialState 0).lava).blobs 0).size = 12 ∧
      ((lavaSpawnBlob { posR := 137, dirR := 1, magR := 55, colR := 2 } 1
        (initialState 0).lava).blobs 0).brightness = 1 ∧
      (10 : ℚ) ≤ ((lavaSpawnBlob { posR := 137, dirR := 1, magR := 55, colR := 2 } 1
        (initialState 0).lava).blobs 0).position ∧
      ((lavaSpawnBlob { posR := 137, dirR := 1, magR := 55, colR := 2 } 1
        (initialState 0).lava).blobs 0).position < 110) :=
  claim_C5 { posR := 137, dirR := 1, magR := 55, colR := 2 } (initialState 0).lava
    (by decide)

/-- A pool of eight active blobs all at brightness 1.0, on which the spawn's
recycling scan finds no victim. -/
def fullBrightPool : LavaState :=
  { blobs := fun _ =>
      { active := true, position := 0, size := 5, brightness := 1, drift := 0, colorIndex := 0 }
    bandLevels := fun _ => 0, bandPeaks := fun _ => 100, dominantBand := 0
    audioLevel := 0, audioPeak := 100, lastAudioLevel := 0 }

/-- Counterexample to claim C6 as stated: on the all-active pool whose blobs
all have brightness 1.0, slot selection returns no slot and a triggered spawn
assigns nothing — the pool is unchanged. -/
theorem claim_C6_counterexample :
    lavaChooseSlot fullBrightPool.blobs = none ∧
    lavaSpawnBlob { posR := 0, dirR := 0, magR := 0, colR := 0 } 1 fullBrightPool =
      fullBrightPool := by
  have hnone : lavaChooseSlot fullBrightPool.blobs = none := by decide
  refine ⟨hnone, ?_⟩
  unfold lavaSpawnBlob
  rw [hnone]

/-- Claim C6, amended: the spawn selects the first inactive slot of the
8-slot pool and, when every slot is active, recycles the slot of minimal
brightness provided some active blob has brightness strictly below 1.0; under
that proviso (which holds for every pool the firmware can present to a spawn,
since a surviving blob's brightness has been multiplied by the 0.92 fade) a
triggered spawn always assigns exactly one slot. When all 8 slots are active
with brightness at least 1.0, the spawn assigns nothing. -/
theorem claim_C6_amended (r : LavaRand) (q : ℚ) (l : LavaState)
    (h : (∃ i, i < LAVA_MAX_BLOBS ∧ (l.blobs i).active = false) ∨
      (∃ i, i < LAVA_MAX_BLOBS ∧ (l.blobs i).brightness < 1)) :
    ∃ k, k < LAVA_MAX_BLOBS ∧ lavaChooseSlot l.blobs = some k ∧
      ((lavaSpawnBlob r q l).blobs k).active = true ∧
      ((lavaSpawnBlob r q l).blobs k).brightness = 5/10 + q * (5/10) ∧
      (∀ j, j ≠ k → (lavaSpawnBlob r q l).blobs j = l.blobs j) ∧
      (((l.blobs k).active = false ∧ ∀ j, j < k → (l.blobs j).active = true) ∨
        ((∀ j, j < LAVA_MAX_BLOBS → (l.blobs j).active = true) ∧
          (l.blobs k).brightness < 1 ∧
          ∀ j, j < LAVA_MAX_BLOBS → (l.blobs k).brightness ≤ (l.blobs j).brightness)) := by
  have hmain : ∃ k, k < LAVA_MAX_BLOBS ∧ lavaChooseSlot l.blobs = some k ∧
      (((l.blobs k).active = false ∧ ∀ j, j < k → (l.blobs j).active = true) ∨
        ((∀ j, j < LAVA_MAX_BLOBS → (l.blobs j).active = true) ∧
          (l.blobs k).brightness < 1 ∧
          ∀ j, j < LAVA_MAX_BLOBS → (l.blobs k).brightness ≤ (l.blobs j).brightness)) := by
    rcases hfi : firstInactive l.blobs with _ | k
    · -- every slot active; the hypothesis supplies a dim blob
      have hall : ∀ j, j < LAVA_MAX_BLOBS → (l.blobs j).active = true := fun j hj =>
        firstInactiveAux_none l.blobs LAVA_MAX_BLOBS 0 hfi j (Nat.zero_le j) (by omega)
      rcases h with ⟨i, hi, hfree⟩ | ⟨i, hi, hdim⟩
      · rw [hall i hi] at hfree; exact absurd hfree (by simp)
      · obtain ⟨h1, h2, h3⟩ := minBrightFold_spec l.blobs (List.range LAVA_MAX_BLOBS) 1 none
        have hlt : ((List.range LAVA_MAX_BLOBS).foldl (fun acc i =>
            if (l.blobs i).brightness < acc.1 then ((l.blobs i).brightness, some i) else acc)
            (1, none)).1 < 1 :=
          lt_of_le_of_lt (h2 i (List.mem_range.mpr hi)) hdim
        rcases h3 with h3 | ⟨k, hk, h3⟩
        · rw [h3] at hlt; exact absurd hlt (lt_irrefl 1)
        · refine ⟨k, List.mem_range.mp hk, ?_, Or.inr ⟨hall, ?_, ?_⟩⟩
          · unfold lavaChooseSlot
            rw [hfi]
            unfold lavaMinBrightSlot
            rw [h3]
          · rw [h3] at hlt; exact hlt
          · intro j hj
            have := h2 j (List.mem_range.mpr hj)
            rw [h3] at this; exact this
    · obtain ⟨-, hk8, hkfree, hkfirst⟩ :=
        firstInactiveAux_some l.blobs LAVA_MAX_BLOBS 0 k hfi
      refine ⟨k, by omega, ?_, Or.inl ⟨hkfree, fun j hj => hkfirst j (Nat.zero_le j) hj⟩⟩
      unfold lavaChooseSlot
      rw [hfi]
  obtain ⟨k, hk8, hks, hsel⟩ := hmain
  have hspawn : (lavaSpawnBlob r q l).blobs = Function.update l.blobs k
      { active := true
        position := (arduinoRandom 10 (NUM_LEDS - 10) r.posR : ℚ)
        size := LAVA_SPAWN_SIZE * (7/10 + q * (5/10))
        brightness := 5/10 + q * (5/10)
        drift := (if arduinoRandom 0 2 r.dirR = 0 then -1 else 1) * LAVA_DRIFT_SPEED *
          (5/10 + (arduinoRandom 0 100 r.magR : ℚ) / 100)
        colorIndex :=
          if LAVA_COLOR_MODE = 0 then arduinoRandom 0 LAVA_NUM_BANDS r.colR
          else l.dominantBand } := by
    unfold lavaSpawnBlob
    rw [hks]
  refine ⟨k, hk8, hks, ?_, ?_, ?_, hsel⟩
  · rw [hspawn, Function.update_same]
  · rw [hspawn, Function.update_same]
  · intro j hj
    rw [hspawn, Function.update_noteq hj]

/-- A full pool in which only slot 3 has decayed below brightness 1.0, used
to witness the amended claim C6. -/
def dimPool : LavaState :=
  { blobs := fun i =>
      { active := true, position := 0, size := 5,
        brightness := if i = 3 then 1/2 else 1, drift := 0, colorIndex := 0 }
    bandLevels := fun _ => 0, bandPeaks := fun _ => 100, dominantBand := 0
    audioLevel := 0, audioPeak := 100, lastAudioLevel := 0 }

/-- Witness for claim C6 (amended) on a full pool with one dim blob. -/
theorem claim_C6_amended_witness :
    ∃ k, k < LAVA_MAX_BLOBS ∧ lavaChooseSlot dimPool.blobs = some k ∧
      ((lavaSpawnBlob { posR := 4, dirR := 0, magR := 9, colR := 1 } 1 dimPool).blobs k).active =
        true ∧
      ((lavaSpawnBlob { posR := 4, dirR := 0, magR := 9, colR := 1 } 1
        dimPool).blobs k).brightness = 5/10 + 1 * (5/10) ∧
      (∀ j, j ≠ k →
        (lavaSpawnBlob { posR := 4, dirR := 0, magR := 9, colR := 1 } 1 dimPool).blobs j =
          dimPool.blobs j) ∧
      (((dimPool.blobs k).active = false ∧ ∀ j, j < k → (dimPool.blobs j).active = true) ∨
        ((∀ j, j < LAVA_MAX_BLOBS → (dimPool.blobs j).active = true) ∧
          (dimPool.blobs k).brightness < 1 ∧
          ∀ j, j < LAVA_MAX_BLOBS →
            (dimPool.blobs k).brightness ≤ (dimPool.blobs j).brightness)) :=
  claim_C6_amended { posR := 4, dirR := 0, magR := 9, colR := 1 } 1 dimPool
    (Or.inr ⟨3, by norm_num [LAVA_MAX_BLOBS], by norm_num [dimPool]⟩)

/-! ### Claims C4, C2, C10: mode transitions -/

/-- `nextMode` always clears the frame, advances the mode cyclically, stamps
`lastSwitch` with the current time, and leaves `lastSpikeSwitch` and the
global audio tracker untouched. -/
lemma nextMode_fields (now : ℕ) (s : ComboState) :
    (nextMode now s).mode = s.mode.next ∧ (nextMode now s).lastSwitch = now ∧
    (nextMode now s).lastSpikeSwitch = s.lastSpikeSwitch ∧
    (nextMode now s).globalAudio = s.globalAudio ∧
    (∀ p, (nextMode now s).frame p = 0) := by
  unfold nextMode
  cases s.mode <;>
    simp [Mode.next, trailSetup, lavaSetup, spectrumSetup]

/-- `checkModeSwitch` when the periodic timer has expired: a periodic
transition, taken before the spike path is even consulted. -/
lemma checkModeSwitch_periodic (now : ℕ) (w : ComboState)
    (hp : SWITCH_INTERVAL_MS ≤ now - w.lastSwitch) :
    checkModeSwitch now w = nextMode now w := by
  unfold checkModeSwitch
  rw [if_pos ⟨rfl, hp⟩]

/-- `checkModeSwitch` on a detected spike once the dwell since the last
spike-triggered switch has elapsed (and the periodic timer has not). -/
lemma checkModeSwitch_spike (now : ℕ) (w : ComboState)
    (hp : ¬(SWITCH_INTERVAL_MS ≤ now - w.lastSwitch))
    (hd : MIN_MODE_TIME_MS ≤ now - w.lastSpikeSwitch)
    (hs : detectAudioSpike w.globalAudio = true) :
    checkModeSwitch now w = nextMode now { w with lastSpikeSwitch := now } := by
  unfold checkModeSwitch
  rw [if_neg (fun hc => hp hc.2), if_pos ⟨rfl, hd, hs⟩]

/-- `checkModeSwitch` changes nothing while neither guard is satisfied. -/
lemma checkModeSwitch_none (now : ℕ) (w : ComboState)
    (hp : ¬(SWITCH_INTERVAL_MS ≤ now - w.lastSwitch))
    (hs : ¬(MIN_MODE_TIME_MS ≤ now - w.lastSpikeSwitch)) :
    checkModeSwitch now w = w := by
  unfold checkModeSwitch
  rw [if_neg (fun hc => hp hc.2), if_neg (fun hc => hs hc.2.1)]

/-- Entering Trail (from Spectrum) resets the trail band peaks to the static
noise floors. -/
lemma nextMode_enter_trail (now : ℕ) (s : ComboState) (hm : s.mode = Mode.spectrum)
    (i : ℕ) (hi : i < TRAIL_NUM_BANDS) :
    (nextMode now s).trail.bandPeaks i = TRAIL_BAND_NOISE i := by
  unfold nextMode
  rw [hm]
  simp only [Mode.next, trailSetup, trailSetupState]
  rw [if_pos hi]

/-- Entering Lava (from Trail) deactivates the blobs and resets its peaks to
100 and its loudness level to 0. -/
lemma nextMode_enter_lava (now : ℕ) (s : ComboState) (hm : s.mode = Mode.trail) (i : ℕ) :
    (i < LAVA_MAX_BLOBS → ((nextMode now s).lava.blobs i).active = false) ∧
    (i < LAVA_NUM_BANDS → (nextMode now s).lava.bandPeaks i = 100) ∧
    (nextMode now s).lava.audioLevel = 0 ∧
    (nextMode now s).lava.audioPeak = 100 := by
  unfold nextMode
  rw [hm]
  simp only [Mode.next, lavaSetup, lavaSetupState]
  refine ⟨fun h8 => by rw [if_pos h8], fun h6 => by rw [if_pos h6], by trivial, by trivial⟩

/-- Entering Spectrum (from Lava) resets every bin peak to twice its
frequency-dependent noise floor. -/
lemma nextMode_enter_spectrum (now : ℕ) (s : ComboState) (hm : s.mode = Mode.lava)
    (b : ℕ) (hb : b < NUM_BINS) :
    (nextMode now s).spectrumPeaks b = spectrumGetNoiseFloor ((b : ℚ) / (NUM_BINS - 1)) * 2 := by
  unfold nextMode
  rw [hm]
  simp only [Mode.next, spectrumSetup, spectrumSetupPeaks]
  rw [if_pos hb]

/-- Counterexample to claim C4 as stated: entering Lava sets the band peaks
to 100, not to the 50 noise floor, and entering Spectrum sets bin peak 1 to
100, twice its 50 noise floor. -/
theorem claim_C4_counterexample :
    (nextMode 5 (initialState 0)).lava.bandPeaks 0 = 100 ∧
    ¬(nextMode 5 (initialState 0)).lava.bandPeaks 0 = 50 ∧
    (nextMode 5 (nextMode 5 (initialState 0))).spectrumPeaks 1 = 100 ∧
    spectrumGetNoiseFloor ((1 : ℚ) / (NUM_BINS - 1)) = 50 ∧
    ¬(nextMode 5 (nextMode 5 (initialState 0))).spectrumPeaks 1 =
      spectrumGetNoiseFloor ((1 : ℚ) / (NUM_BINS - 1)) := by
  have hm0 : (initialState 0).mode = Mode.trail := rfl
  have hfloor : spectrumGetNoiseFloor ((1 : ℚ) / (NUM_BINS - 1)) = 50 := by
    norm_num [spectrumGetNoiseFloor, NUM_BINS, SAMPLES, SPECTRUM_NOISE_LOW]
  have hm1 : (nextMode 5 (initialState 0)).mode = Mode.lava := by
    rw [(nextMode_fields 5 (initialState 0)).1, hm0]; rfl
  have hlava : (nextMode 5 (initialState 0)).lava.bandPeaks 0 = 100 :=
    (nextMode_enter_lava 5 (initialState 0) hm0 0).2.1 (by norm_num [LAVA_NUM_BANDS])
  have hspec : (nextMode 5 (nextMode 5 (initialState 0))).spectrumPeaks 1 = 100 := by
    rw [nextMode_enter_spectrum 5 (nextMode 5 (initialState 0)) hm1 1
      (by norm_num [NUM_BINS, SAMPLES])]
    norm_num [spectrumGetNoiseFloor, NUM_BINS, SAMPLES, SPECTRUM_NOISE_LOW]
  exact ⟨hlava, by rw [hlava]; norm_num, hspec, hfloor, by rw [hspec, hfloor]; norm_num⟩

/-- Claim C4, amended: on every transition `nextMode` clears the frame
buffer; entering Trail resets every trail band peak to its static noise
floor; entering Lava deactivates all 8 blobs, resets its 6 band peaks and the
loudness peak to 100 (twice the floor constant 50, not the floor itself) and
the loudness level to 0; entering Spectrum resets every bin peak to twice its
frequency-dependent noise floor (not the floor itself). -/
theorem claim_C4_amended (now : ℕ) (s : ComboState) (p i b : ℕ)
    (hi : i < TRAIL_NUM_BANDS) (hb : b < NUM_BINS) :
    (nextMode now s).frame p = 0 ∧
    (s.mode = Mode.spectrum → (nextMode now s).trail.bandPeaks i = TRAIL_BAND_NOISE i) ∧
    (s.mode = Mode.trail →
      ((nextMode now s).lava.blobs i).active = false ∧
      (i < LAVA_NUM_BANDS → (nextMode now s).lava.bandPeaks i = 100) ∧
      (nextMode now s).lava.audioLevel = 0 ∧
      (nextMode now s).lava.audioPeak = 100) ∧
    (s.mode = Mode.lava →
      (nextMode now s).spectrumPeaks b = spectrumGetNoiseFloor ((b : ℚ) / (NUM_BINS - 1)) * 2) := by
  refine ⟨(nextMode_fields now s).2.2.2.2 p, fun hm => nextMode_enter_trail now s hm i hi,
    fun hm => ?_, fun hm => nextMode_enter_spectrum now s hm b hb⟩
  obtain ⟨h1, h2, h3, h4⟩ := nextMode_enter_lava now s hm i
  exact ⟨h1 (by unfold LAVA_MAX_BLOBS; unfold TRAIL_NUM_BANDS at hi; omega), h2, h3, h4⟩

/-- Witness for claim C4 (amended), driven around the full Trail → Lava →
Spectrum → Trail cycle from the initial state. -/
theorem claim_C4_amended_witness :
    ((nextMode 7 (initialState 0)).frame 3 = 0 ∧
      ((initialState 0).mode = Mode.spectrum →
        (nextMode 7 (initialState 0)).trail.bandPeaks 2 = TRAIL_BAND_NOISE 2) ∧
      ((initialState 0).mode = Mode.trail →
        ((nextMode 7 (initialState 0)).lava.blobs 2).active = false ∧
        (2 < LAVA_NUM_BANDS → (nextMode 7 (initialState 0)).lava.bandPeaks 2 = 100) ∧
        (nextMode 7 (initialState 0)).lava.audioLevel = 0 ∧
        (nextMode 7 (initialState 0)).lava.audioPeak = 100) ∧
      ((initialState 0).mode = Mode.lava →
        (nextMode 7 (initialState 0)).spectrumPeaks 9 =
          spectrumGetNoiseFloor ((9 : ℚ) / (NUM_BINS - 1)) * 2)) ∧
    ((nextMode 8 (nextMode 7 (initialState 0))).frame 3 = 0 ∧
      ((nextMode 7 (initialState 0)).mode = Mode.spectrum →
        (nextMode 8 (nextMode 7 (initialState 0))).trail.bandPeaks 2 = TRAIL_BAND_NOISE 2) ∧
      ((nextMode 7 (initialState 0)).mode = Mode.trail →
        ((nextMode 8 (nextMode 7 (initialState 0))).lava.blobs 2).active = false ∧
        (2 < LAVA_NUM_BANDS →
          (nextMode 8 (nextMode 7 (initialState 0))).lava.bandPeaks 2 = 100) ∧
        (nextMode 8 (nextMode 7 (initialState 0))).lava.audioLevel = 0 ∧
        (nextMode 8 (nextMode 7 (initialState 0))).lava.audioPeak = 100) ∧
      ((nextMode 7 (initialState 0)).mode = Mode.lava →
        (nextMode 8 (nextMode 7 (initialState 0))).spectrumPeaks 9 =
          spectrumGetNoiseFloor ((9 : ℚ) / (NUM_BINS - 1)) * 2)) :=
  ⟨claim_C4_amended 7 (initialState 0) 3 2 9 (by norm_num [TRAIL_NUM_BANDS])
      (by norm_num [NUM_BINS, SAMPLES]),
    claim_C4_amended 8 (nextMode 7 (initialState 0)) 3 2 9 (by norm_num [TRAIL_NUM_BANDS])
      (by norm_num [NUM_BINS, SAMPLES])⟩

/-- Claim C2: with interval `T = SWITCH_INTERVAL_MS` and dwell
`D = MIN_MODE_TIME_MS`, `D < T`, starting at Trail with both switch stamps at
0, a detected spike at time `D + 1` forces an immediate transition through
`checkModeSwitch` (Trail becomes Lava, both stamps become `D + 1`), and at
every later time `t` with `t < 2 D + 1` — i.e. until `D` has elapsed since
that spike-triggered transition — a further call of `checkModeSwitch` changes
nothing, whatever the audio tracker then holds (in particular one cycle after
the first spike). -/
theorem claim_C2 (s : ComboState) (t : ℕ) (g : AudioTracker)
    (hmode : s.mode = Mode.trail) (hls : s.lastSwitch = 0) (hlss : s.lastSpikeSwitch = 0)
    (hspike : detectAudioSpike s.globalAudio = true)
    (ht1 : MIN_MODE_TIME_MS + 1 < t) (ht2 : t < 2 * MIN_MODE_TIME_MS + 1) :
    MIN_MODE_TIME_MS < SWITCH_INTERVAL_MS ∧
    (checkModeSwitch (MIN_MODE_TIME_MS + 1) s).mode = Mode.lava ∧
    (checkModeSwitch (MIN_MODE_TIME_MS + 1) s).lastSwitch = MIN_MODE_TIME_MS + 1 ∧
    (checkModeSwitch (MIN_MODE_TIME_MS + 1) s).lastSpikeSwitch = MIN_MODE_TIME_MS + 1 ∧
    checkModeSwitch t { checkModeSwitch (MIN_MODE_TIME_MS + 1) s with globalAudio := g } =
      { checkModeSwitch (MIN_MODE_TIME_MS + 1) s with globalAudio := g } := by
  have hD : MIN_MODE_TIME_MS = 30000 := rfl
  have hT : SWITCH_INTERVAL_MS = 90000 := rfl
  have hswitch : checkModeSwitch (MIN_MODE_TIME_MS + 1) s =
      nextMode (MIN_MODE_TIME_MS + 1) { s with lastSpikeSwitch := MIN_MODE_TIME_MS + 1 } := by
    apply checkModeSwitch_spike
    · rw [hls, hD, hT]; norm_num
    · rw [hlss, hD]; norm_num
    · exact hspike
  obtain ⟨hm, hl, hlsp, -, -⟩ :=
    nextMode_fields (MIN_MODE_TIME_MS + 1) { s with lastSpikeSwitch := MIN_MODE_TIME_MS + 1 }
  have hm' : (checkModeSwitch (MIN_MODE_TIME_MS + 1) s).mode = Mode.lava := by
    rw [hswitch, hm]
    show s.mode.next = Mode.lava
    rw [hmode]
    rfl
  have hl' : (checkModeSwitch (MIN_MODE_TIME_MS + 1) s).lastSwitch = MIN_MODE_TIME_MS + 1 := by
    rw [hswitch, hl]
  have hlsp' : (checkModeSwitch (MIN_MODE_TIME_MS + 1) s).lastSpikeSwitch =
      MIN_MODE_TIME_MS + 1 := by
    rw [hswitch, hlsp]
  refine ⟨by rw [hD, hT]; norm_num, hm', hl', hlsp', ?_⟩
  apply checkModeSwitch_none
  · show ¬(SWITCH_INTERVAL_MS ≤ t - (checkModeSwitch (MIN_MODE_TIME_MS + 1) s).lastSwitch)
    rw [hl', hD, hT]
    rw [hD] at ht1 ht2
    omega
  · show ¬(MIN_MODE_TIME_MS ≤ t - (checkModeSwitch (MIN_MODE_TIME_MS + 1) s).lastSpikeSwitch)
    rw [hlsp', hD]
    rw [hD] at ht1 ht2
    omega

/-- Witness for claim C2 with a concrete spiking tracker. -/
theorem claim_C2_witness :
    MIN_MODE_TIME_MS < SWITCH_INTERVAL_MS ∧
    (checkModeSwitch (MIN_MODE_TIME_MS + 1)
      { initialState 0 with globalAudio := { level := 150, peak := 150, lastLevel := 0 } }).mode =
      Mode.lava ∧
    (checkModeSwitch (MIN_MODE_TIME_MS + 1)
      { initialState 0 with
        globalAudio := { level := 150, peak := 150, lastLevel := 0 } }).lastSwitch =
      MIN_MODE_TIME_MS + 1 ∧
    (checkModeSwitch (MIN_MODE_TIME_MS + 1)
      { initialState 0 with
        globalAudio := { level := 150, peak := 150, lastLevel := 0 } }).lastSpikeSwitch =
      MIN_MODE_TIME_MS + 1 ∧
    checkModeSwitch (MIN_MODE_TIME_MS + 2)
      { checkModeSwitch (MIN_MODE_TIME_MS + 1)
          { initialState 0 with
            globalAudio := { level := 150, peak := 150, lastLevel := 0 } } with
        globalAudio := { level := 500, peak := 500, lastLevel := 490 } } =
      { checkModeSwitch (MIN_MODE_TIME_MS + 1)
          { initialState 0 with
            globalAudio := { level := 150, peak := 150, lastLevel := 0 } } with
        globalAudio := { level := 500, peak := 500, lastLevel := 490 } } :=
  claim_C2 { initialState 0 with globalAudio := { level := 150, peak := 150, lastLevel := 0 } }
    (MIN_MODE_TIME_MS + 2) { level := 500, peak := 500, lastLevel := 490 }
    rfl rfl rfl
    (by rw [detectAudioSpike_eq_true]; norm_num [constrain, SPIKE_THRESHOLD])
    (by norm_num) (by norm_num [MIN_MODE_TIME_MS])

/-- Claim C10: the spike guard is measured only from the previous
spike-triggered switch — `nextMode` never updates `lastSpikeSwitch`, so a
periodic transition leaves the spike guard untouched, and a spike arriving
any time at least `MIN_MODE_TIME_MS` after the last spike-triggered switch
forces a transition even immediately after a periodic switch. -/
theorem claim_C10 (s u : ComboState) (g : AudioTracker) (t1 t2 now : ℕ)
    (hper : SWITCH_INTERVAL_MS ≤ t1 - s.lastSwitch)
    (h12 : t1 ≤ t2) (hlt : t2 - t1 < SWITCH_INTERVAL_MS)
    (hdwell : MIN_MODE_TIME_MS ≤ t2 - s.lastSpikeSwitch)
    (hspike : detectAudioSpike g = true) :
    (nextMode now u).lastSpikeSwitch = u.lastSpikeSwitch ∧
    (checkModeSwitch t1 s).lastSpikeSwitch = s.lastSpikeSwitch ∧
    (checkModeSwitch t1 s).mode = s.mode.next ∧
    (checkModeSwitch t1 s).lastSwitch = t1 ∧
    (checkModeSwitch t2 { checkModeSwitch t1 s with globalAudio := g }).mode =
      s.mode.next.next ∧
    (checkModeSwitch t2 { checkModeSwitch t1 s with globalAudio := g }).lastSpikeSwitch = t2 := by
  have hcms1 : checkModeSwitch t1 s = nextMode t1 s := checkModeSwitch_periodic t1 s hper
  obtain ⟨hm1, hl1, hlsp1, -, -⟩ := nextMode_fields t1 s
  have hmode1 : (checkModeSwitch t1 s).mode = s.mode.next := by rw [hcms1, hm1]
  have hls1 : (checkModeSwitch t1 s).lastSwitch = t1 := by rw [hcms1, hl1]
  have hlss1 : (checkModeSwitch t1 s).lastSpikeSwitch = s.lastSpikeSwitch := by
    rw [hcms1, hlsp1]
  have hcms2 : checkModeSwitch t2 { checkModeSwitch t1 s with globalAudio := g } =
      nextMode t2
        { { checkModeSwitch t1 s with globalAudio := g } with lastSpikeSwitch := t2 } := by
    apply checkModeSwitch_spike
    · show ¬(SWITCH_INTERVAL_MS ≤ t2 - (checkModeSwitch t1 s).lastSwitch)
      rw [hls1]
      omega
    · show MIN_MODE_TIME_MS ≤ t2 - (checkModeSwitch t1 s).lastSpikeSwitch
      rw [hlss1]
      exact hdwell
    · exact hspike
  obtain ⟨hm2, hl2, hlsp2, -, -⟩ := nextMode_fields t2
    { { checkModeSwitch t1 s with globalAudio := g } with lastSpikeSwitch := t2 }
  refine ⟨(nextMode_fields now u).2.2.1, hlss1, hmode1, hls1, ?_, ?_⟩
  · rw [hcms2, hm2]
    show (checkModeSwitch t1 s).mode.next = _
    rw [hmode1]
  · rw [hcms2, hlsp2]

/-- Witness for claim C10: periodic switch at 90000 and a spike one
millisecond later. -/
theorem claim_C10_witness :
    (nextMode 7 (initialState 3)).lastSpikeSwitch = (initialState 3).lastSpikeSwitch ∧
    (checkModeSwitch 90000 (initialState 0)).lastSpikeSwitch =
      (initialState 0).lastSpikeSwitch ∧
    (checkModeSwitch 90000 (initialState 0)).mode = (initialState 0).mode.next ∧
    (checkModeSwitch 90000 (initialState 0)).lastSwitch = 90000 ∧
    (checkModeSwitch 90001
      { checkModeSwitch 90000 (initialState 0) with
        globalAudio := { level := 150, peak := 150, lastLevel := 0 } }).mode =
      (initialState 0).mode.next.next ∧
    (checkModeSwitch 90001
      { checkModeSwitch 90000 (initialState 0) with
        globalAudio := { level := 150, peak := 150, lastLevel := 0 } }).lastSpikeSwitch =
      90001 :=
  claim_C10 (initialState 0) (initialState 3) { level := 150, peak := 150, lastLevel := 0 }
    90000 90001 7
    (by norm_num [SWITCH_INTERVAL_MS, initialState])
    (by norm_num) (by norm_num [SWITCH_INTERVAL_MS])
    (by norm_num [MIN_MODE_TIME_MS, initialState])
    (by rw [detectAudioSpike_eq_true]; norm_num [constrain, SPIKE_THRESHOLD])

/-! ### Claim C1: the peak-above-floor invariant -/

/-- Every adaptive peak of the combo state sits at or above its static floor:
the 8 trail band peaks above `TRAIL_BAND_NOISE`, the 6 lava band peaks and
both loudness trackers above the floor constant 50, and every spectrum bin
peak from bin 1 up above its frequency-dependent noise floor. -/
def comboInv (s : ComboState) : Prop :=
  (∀ b, b < TRAIL_NUM_BANDS → TRAIL_BAND_NOISE b ≤ s.trail.bandPeaks b) ∧
  (∀ b, b < LAVA_NUM_BANDS → (50 : ℚ) ≤ s.lava.bandPeaks b) ∧
  (50 : ℚ) ≤ s.lava.audioPeak ∧
  (50 : ℚ) ≤ s.globalAudio.peak ∧
  (∀ b, b < NUM_BINS → 1 ≤ b →
    spectrumGetNoiseFloor ((b : ℚ) / (NUM_BINS - 1)) ≤ s.spectrumPeaks b)

lemma spectrumGetNoiseFloor_nonneg (x : ℚ) : 0 ≤ spectrumGetNoiseFloor x := by
  unfold spectrumGetNoiseFloor SPECTRUM_NOISE_LOW SPECTRUM_NOISE_MID SPECTRUM_NOISE_HIGH
  split_ifs <;> norm_num

/-- Both branches of the trail peak update keep the peak at or above the
band's noise floor. -/
lemma trailPeakUpdate_ge (band peak noise : ℚ) (h : noise ≤ peak) :
    noise ≤ trailPeakUpdate band peak noise := by
  unfold trailPeakUpdate
  split_ifs with hb
  · linarith
  · linarith

/-- Both branches of the lava band peak update keep the peak at or above the
floor constant 50. -/
lemma lavaPeakUpdate_ge (level peak : ℚ) (h : 50 ≤ peak) : 50 ≤ lavaPeakUpdate level peak := by
  unfold lavaPeakUpdate
  split_ifs with hb
  · linarith
  · linarith

/-- Both branches of the spectrum bin peak update keep the peak at or above
that bin's frequency-dependent noise floor. -/
lemma spectrumPeakUpdate_ge (v peaks : ℕ → ℚ) (b : ℕ) (hb : 1 ≤ b ∧ b < NUM_BINS)
    (h : spectrumGetNoiseFloor ((b : ℚ) / (NUM_BINS - 1)) ≤ peaks b) :
    spectrumGetNoiseFloor ((b : ℚ) / (NUM_BINS - 1)) ≤ spectrumPeakUpdate v peaks b := by
  unfold spectrumPeakUpdate
  rw [if_pos hb]
  dsimp only
  split_ifs with h1
  · linarith
  · linarith

/-- The global loudness peak never decays below the floor constant 50. -/
lemma updateGlobalAudioLevel_peak_ge (v : ℕ → ℚ) (s : AudioTracker) (h : 50 ≤ s.peak) :
    50 ≤ (updateGlobalAudioLevel v s).peak := by
  unfold updateGlobalAudioLevel
  dsimp only
  split_ifs <;> linarith

/-- The lava loudness peak never decays below the floor constant 50. -/
lemma lavaAnalyzeAudio_audioPeak_ge (v : ℕ → ℚ) (l : LavaState) (h : 50 ≤ l.audioPeak) :
    50 ≤ (lavaAnalyzeAudio v l).audioPeak := by
  unfold lavaAnalyzeAudio
  dsimp only
  split_ifs <;> linarith

lemma lavaAnalyzeAudio_bandPeaks (v : ℕ → ℚ) (l : LavaState) (b : ℕ) :
    (lavaAnalyzeAudio v l).bandPeaks b =
      if b < LAVA_NUM_BANDS then
        lavaPeakUpdate (if b < LAVA_NUM_BANDS then lavaBandMean v b else l.bandLevels b)
          (l.bandPeaks b)
      else l.bandPeaks b := rfl

/-- Spawning a blob touches only the blob pool. -/
lemma lavaSpawnBlob_peaks (r : LavaRand) (q : ℚ) (l : LavaState) :
    (lavaSpawnBlob r q l).bandPeaks = l.bandPeaks ∧
    (lavaSpawnBlob r q l).audioPeak = l.audioPeak := by
  unfold lavaSpawnBlob
  rcases hc : lavaChooseSlot l.blobs with _ | k <;> simp

/-- The spawn trigger touches only the blob pool. -/
lemma lavaCheckTrigger_peaks (r : LavaRand) (l : LavaState) :
    (lavaCheckTrigger r l).bandPeaks = l.bandPeaks ∧
    (lavaCheckTrigger r l).audioPeak = l.audioPeak := by
  unfold lavaCheckTrigger
  show ((if lavaNormalized l.audioLevel l.audioPeak > LAVA_TRIGGER_THRESHOLD ∧
        lavaNormalized l.audioLevel l.audioPeak >
          lavaNormalized l.lastAudioLevel l.audioPeak + 1/10 then
      lavaSpawnBlob r (lavaNormalized l.audioLevel l.audioPeak) l
    else l).bandPeaks = l.bandPeaks ∧
    (if lavaNormalized l.audioLevel l.audioPeak > LAVA_TRIGGER_THRESHOLD ∧
        lavaNormalized l.audioLevel l.audioPeak >
          lavaNormalized l.lastAudioLevel l.audioPeak + 1/10 then
      lavaSpawnBlob r (lavaNormalized l.audioLevel l.audioPeak) l
    else l).audioPeak = l.audioPeak)
  split_ifs
  · exact lavaSpawnBlob_peaks _ _ _
  · exact ⟨rfl, rfl⟩

lemma lavaUpdateBlobs_peaks (l : LavaState) :
    (lavaUpdateBlobs l).bandPeaks = l.bandPeaks ∧ (lavaUpdateBlobs l).audioPeak = l.audioPeak :=
  ⟨rfl, rfl⟩

lemma trailUpdateState_bandPeaks (v : ℕ → ℚ) (now : ℕ) (t : TrailState) (f : ℕ → ℕ) (b : ℕ) :
    (trailUpdateState v now t f).1.bandPeaks b =
      if b < TRAIL_NUM_BANDS then
        trailPeakUpdate (if b < TRAIL_NUM_BANDS then trailBandMean v b else t.bands b)
          (t.bandPeaks b) (TRAIL_BAND_NOISE b)
      else t.bandPeaks b := rfl

/-- The invariant holds right after `setup()`. -/
lemma comboInv_initialState (t0 : ℕ) : comboInv (initialState t0) := by
  refine ⟨?_, ?_, ?_, ?_, ?_⟩
  · intro b hb
    show TRAIL_BAND_NOISE b ≤
      (if b < TRAIL_NUM_BANDS then TRAIL_BAND_NOISE b else zeroState.trail.bandPeaks b)
    rw [if_pos hb]
  · intro b hb
    show (50 : ℚ) ≤ (if b < LAVA_NUM_BANDS then 100 else zeroState.lava.bandPeaks b)
    rw [if_pos hb]
    norm_num
  · show (50 : ℚ) ≤ 100
    norm_num
  · show (50 : ℚ) ≤ 100
    norm_num
  · intro b hb _
    show spectrumGetNoiseFloor ((b : ℚ) / (NUM_BINS - 1)) ≤
      (if b < NUM_BINS then spectrumGetNoiseFloor ((b : ℚ) / (NUM_BINS - 1)) * 2
        else zeroState.spectrumPeaks b)
    rw [if_pos hb]
    have := spectrumGetNoiseFloor_nonneg ((b : ℚ) / (NUM_BINS - 1))
    linarith

/-- `nextMode` preserves the invariant: the entered engine's peaks are reset
at or above their floors, all other peaks are untouched. -/
lemma comboInv_nextMode (now : ℕ) (s : ComboState) (h : comboInv s) :
    comboInv (nextMode now s) := by
  obtain ⟨h1, h2, h3, h4, h5⟩ := h
  unfold nextMode
  dsimp only
  cases hm : s.mode <;> dsimp only [Mode.next]
  · -- entering Lava
    unfold lavaSetup lavaSetupState
    refine ⟨h1, ?_, by norm_num, h4, h5⟩
    intro b hb
    dsimp only
    rw [if_pos hb]
    norm_num
  · -- entering Spectrum
    unfold spectrumSetup spectrumSetupPeaks
    refine ⟨h1, h2, h3, h4, ?_⟩
    intro b hb _
    dsimp only
    rw [if_pos hb]
    have := spectrumGetNoiseFloor_nonneg ((b : ℚ) / (NUM_BINS - 1))
    linarith
  · -- entering Trail
    unfold trailSetup trailSetupState
    refine ⟨?_, h2, h3, h4, h5⟩
    intro b hb
    dsimp only
    rw [if_pos hb]

/-- `checkModeSwitch` preserves the invariant. -/
lemma comboInv_checkModeSwitch (now : ℕ) (s : ComboState) (h : comboInv s) :
    comboInv (checkModeSwitch now s) := by
  unfold checkModeSwitch
  split_ifs with hc1 hc2
  · exact comboInv_nextMode now s h
  · exact comboInv_nextMode now { s with lastSpikeSwitch := now } h
  · exact h

/-- Claim C1: at every point in the combo firmware's execution every adaptive
peak is at least its static floor — the invariant holds after initialization,
is re-established by every mode re-initialization (`nextMode`), and is
preserved by a full `loop()` iteration on any input spectrum, through both
the instant-rise and the floor-biased decay branch of every peak update. -/
theorem claim_C1 (t0 : ℕ) (v : ℕ → ℚ) (r : LavaRand) (now : ℕ) (s : ComboState)
    (h : comboInv s) :
    comboInv (initialState t0) ∧ comboInv (nextMode now s) ∧ comboInv (loopStep v r now s) := by
  refine ⟨comboInv_initialState t0, comboInv_nextMode now s h, ?_⟩
  have h1 : comboInv { s with globalAudio := updateGlobalAudioLevel v s.globalAudio } :=
    ⟨h.1, h.2.1, h.2.2.1, updateGlobalAudioLevel_peak_ge v s.globalAudio h.2.2.2.1, h.2.2.2.2⟩
  have h2 : comboInv (checkModeSwitch now
      { s with globalAudio := updateGlobalAudioLevel v s.globalAudio }) :=
    comboInv_checkModeSwitch now _ h1
  unfold loopStep
  dsimp only
  split
  · -- Trail mode
    obtain ⟨g1, g2, g3, g4, g5⟩ := h2
    refine ⟨?_, g2, g3, g4, g5⟩
    intro b hb
    rw [trailUpdateState_bandPeaks]
    rw [if_pos hb]
    exact trailPeakUpdate_ge _ _ _ (g1 b hb)
  · -- Lava mode
    obtain ⟨g1, g2, g3, g4, g5⟩ := h2
    refine ⟨g1, ?_, ?_, g4, g5⟩
    · intro b hb
      show (50 : ℚ) ≤ (lavaUpdateBlobs (lavaCheckTrigger r (lavaAnalyzeAudio v _))).bandPeaks b
      rw [(lavaUpdateBlobs_peaks _).1, (lavaCheckTrigger_peaks _ _).1,
        lavaAnalyzeAudio_bandPeaks, if_pos hb]
      exact lavaPeakUpdate_ge _ _ (g2 b hb)
    · show (50 : ℚ) ≤ (lavaUpdateBlobs (lavaCheckTrigger r (lavaAnalyzeAudio v _))).audioPeak
      rw [(lavaUpdateBlobs_peaks _).2, (lavaCheckTrigger_peaks _ _).2]
      exact lavaAnalyzeAudio_audioPeak_ge v _ g3
  · -- Spectrum mode
    obtain ⟨g1, g2, g3, g4, g5⟩ := h2
    refine ⟨g1, g2, g3, g4, ?_⟩
    intro b hb hb1
    exact spectrumPeakUpdate_ge v _ b ⟨hb1, hb⟩ (g5 b hb hb1)

/-- Witness for claim C1 from the freshly initialized state. -/
theorem claim_C1_witness :
    comboInv (initialState 4) ∧ comboInv (nextMode 9 (initialState 0)) ∧
    comboInv (loopStep (fun _ => 0) { posR := 0, dirR := 0, magR := 0, colR := 0 } 9
      (initialState 0)) :=
  claim_C1 4 (fun _ => 0) { posR := 0, dirR := 0, magR := 0, colR := 0 } 9 (initialState 0)
    (comboInv_initialState 0)

/-! ### Claim C7: the scroll round-trip -/

lemma trailLed_eq (i : ℕ) : trailLed i = 119 - i := by
  simp [trailLed, TRAIL_REVERSE, NUM_LEDS]

lemma trailLed_inj (i j : ℕ) (hi : i ≤ 119) (hj : j ≤ 119) : trailLed i = trailLed j ↔ i = j := by
  rw [trailLed_eq, trailLed_eq]
  omega

/-- One write of the scroll loop, read back at an arbitrary logical
position. -/
lemma trailScrollWrite_apply (fade : ℚ) (f : ℕ → ℕ) (i m : ℕ) (hi : i ≤ 119) (hm : m ≤ 119) :
    trailScrollWrite fade f i (trailLed m) =
      if m = i then
        (if 16 ≤ i then trailFadeColor (f (trailLed (i - 8))) fade else f (trailLed (i - 8)))
      else f (trailLed m) := by
  unfold trailScrollWrite
  simp only [show TRAIL_REALTIME_LEDS = 8 from rfl, show (8 : ℕ) + 8 = 16 from rfl]
  by_cases hmi : m = i
  · subst hmi
    rw [if_pos rfl]
    split_ifs
    · exact Function.update_same _ _ _
    · exact Function.update_same _ _ _
  · rw [if_neg hmi]
    have hne : trailLed m ≠ trailLed i := fun hc => hmi ((trailLed_inj m i hm hi).mp hc)
    split_ifs
    · exact Function.update_noteq hne _ _
    · exact Function.update_noteq hne _ _

/-- The descending scroll loop with fuel `n` (processing logical positions
`n + 7` down to 8) moves every processed position's pixel one hop outward,
reading only pre-loop values: each processed position receives the (faded,
when past twice the realtime zone) pixel 8 positions closer to the head. -/
lemma trailScrollAux_apply (fade : ℚ) (j : ℕ) (hj : j ≤ 119) :
    ∀ (n : ℕ), n ≤ 112 → ∀ (f : ℕ → ℕ),
      trailScrollAux fade n f (trailLed j) =
        if 8 ≤ j ∧ j < n + 8 then
          (if 16 ≤ j then trailFadeColor (f (trailLed (j - 8))) fade else f (trailLed (j - 8)))
        else f (trailLed j) := by
  intro n
  induction n with
  | zero =>
    intro _ f
    rw [if_neg (by omega)]
    rfl
  | succ n ih =>
    intro hn f
    show trailScrollAux fade n (trailScrollWrite fade f (n + TRAIL_REALTIME_LEDS))
      (trailLed j) = _
    rw [show TRAIL_REALTIME_LEDS = 8 from rfl]
    rw [ih (by omega) (trailScrollWrite fade f (n + 8))]
    by_cases hj8 : 8 ≤ j ∧ j < n + 8
    · -- position already processed by the remaining loop; its source is
      -- closer to the head than any position the outer write touched
      rw [if_pos hj8, if_pos (show 8 ≤ j ∧ j < n + 1 + 8 by omega)]
      rw [trailScrollWrite_apply fade f (n + 8) (j - 8) (by omega) (by omega)]
      rw [if_neg (show ¬(j - 8 = n + 8) by omega)]
    · by_cases hjeq : j = n + 8
      · -- the position written by this iteration
        rw [if_neg hj8, if_pos (show 8 ≤ j ∧ j < n + 1 + 8 by omega)]
        rw [trailScrollWrite_apply fade f (n + 8) j (by omega) hj]
        rw [if_pos hjeq]
        subst hjeq
        rw [show n + 8 - 8 = n from by omega]
      · -- untouched position
        rw [if_neg hj8, if_neg (show ¬(8 ≤ j ∧ j < n + 1 + 8) by omega)]
        rw [trailScrollWrite_apply fade f (n + 8) j (by omega) hj]
        rw [if_neg hjeq]

/-- One full scroll step: every logical position from 8 on receives the pixel
8 positions closer to the head (faded from position 16 on), the realtime zone
is untouched. -/
lemma trailScroll_apply (fade : ℚ) (f : ℕ → ℕ) (j : ℕ) (hj : j ≤ 119) :
    trailScroll fade f (trailLed j) =
      if 8 ≤ j then
        (if 16 ≤ j then trailFadeColor (f (trailLed (j - 8))) fade else f (trailLed (j - 8)))
      else f (trailLed j) := by
  unfold trailScroll
  rw [show NUM_LEDS - TRAIL_REALTIME_LEDS = 112 from rfl]
  rw [trailScrollAux_apply fade j hj 112 (le_refl 112) f]
  by_cases h : 8 ≤ j
  · rw [if_pos ⟨h, by omega⟩, if_pos h]
  · rw [if_neg (fun hc => h hc.1), if_neg h]

/-- Iterating the scroll step with fade factor 1: after `k` steps every
position within `8 k + 8` of the head carries an exact copy of the original
realtime pattern (period 8), and every farther position carries the original
pixel `8 k` positions closer to the head. -/
lemma trailScroll_one_iter (f : ℕ → ℕ) (hf : ∀ p, p ≤ 119 → f p < 2 ^ 24) :
    ∀ (k : ℕ) (j : ℕ), j ≤ 119 →
      (trailScroll 1)^[k] f (trailLed j) =
        if j < 8 * k + 8 then f (trailLed (j % 8)) else f (trailLed (j - 8 * k)) := by
  intro k
  induction k with
  | zero =>
    intro j hj
    simp only [Function.iterate_zero, id]
    split_ifs with h
    · rw [Nat.mod_eq_of_lt (by omega)]
    · rw [show 8 * 0 = 0 from rfl, Nat.sub_zero]
  | succ k ih =>
    intro j hj
    rw [Function.iterate_succ_apply']
    have hg : ∀ p, p ≤ 119 → (trailScroll 1)^[k] f p < 2 ^ 24 := by
      intro p hp
      have hp' : p = trailLed (119 - p) := by rw [trailLed_eq]; omega
      rw [hp', ih (119 - p) (by omega)]
      split_ifs
      · exact hf _ (by rw [trailLed_eq]; omega)
      · exact hf _ (by rw [trailLed_eq]; omega)
    rw [trailScroll_apply 1 _ j hj]
    by_cases hj8 : 8 ≤ j
    · rw [if_pos hj8]
      have hval : (if 16 ≤ j then
            trailFadeColor ((trailScroll 1)^[k] f (trailLed (j - 8))) 1
          else (trailScroll 1)^[k] f (trailLed (j - 8))) =
          (trailScroll 1)^[k] f (trailLed (j - 8)) := by
        split_ifs with h16
        · exact trailFadeColor_one _ (hg _ (by rw [trailLed_eq]; omega))
        · rfl
      rw [hval, ih (j - 8) (by omega)]
      by_cases hlt : j - 8 < 8 * k + 8
      · rw [if_pos hlt, if_pos (by omega)]
        have : (j - 8) % 8 = j % 8 := by omega
        rw [this]
      · rw [if_neg hlt, if_neg (by omega)]
        have : j - 8 - 8 * k = j - 8 * (k + 1) := by omega
        rw [this]
    · rw [if_neg hj8, ih j hj, if_pos (by omega), if_pos (by omega)]

/-- Claim C7: with fade factor 1.0 (no fade), running the Trail scroll step
exactly `NUM_LEDS / TRAIL_REALTIME_LEDS = 15` times reproduces the original
realtime pattern across the whole strip with no loss of color information:
every logical position `j` then carries exactly the original realtime pixel
`j % 8` — the realtime pattern shifted outward by 8 positions per step, for
every initial 24-bit frame-buffer content. -/
theorem claim_C7 (f : ℕ → ℕ) (hf : ∀ p, p ≤ 119 → f p < 2 ^ 24) (j : ℕ) (hj : j ≤ 119) :
    (trailScroll 1)^[NUM_LEDS / TRAIL_REALTIME_LEDS] f (trailLed j) = f (trailLed (j % 8)) := by
  rw [show NUM_LEDS / TRAIL_REALTIME_LEDS = 15 from rfl]
  rw [trailScroll_one_iter f hf 15 j hj]
  rw [if_pos (by omega)]

/-- Witness for claim C7 on a concrete frame whose pixel values are their
positions. -/
theorem claim_C7_witness :
    (trailScroll 1)^[NUM_LEDS / TRAIL_REALTIME_LEDS] (fun p => p) (trailLed 57) =
      (fun p : ℕ => p) (trailLed (57 % 8)) :=
  claim_C7 (fun p => p) (fun p hp => lt_of_le_of_lt hp (by norm_num)) 57 (by norm_num)

end Combo
